import Mathlib

/-!
A verification development for the rectilinear-polygon classifier
(`src/days/day09/src/main.rs`).  The Rust code is shallowly embedded:

* `u64` coordinates become `Nat`.  Arithmetic that the Rust program can
  only overflow when a value equals `2^64 - 1` is modelled without
  wrapping; the two places where wrap-around is the subject of a claim
  (the area product in `Point.area_with`, and the `x - 1` / `y - 1`
  neighbour offsets in the orientation-propagation functions) use an
  explicit `% 2^64`, matching release-mode Rust (`u64` wrap-around; a
  debug build aborts at the same spot).
* The nested `BTreeMap<u64, BTreeMap<u64, Tile>>` is modelled as a flat
  association list keyed by `(x, y)`: the program never observes the
  iteration order of the maps (all sweeps iterate over coordinate
  ranges), only membership and per-key lookup, which the association
  list reproduces exactly (`insert_tile` inserts only absent keys, so
  keys stay unique).
* Rust `panic!` sites that are reachable become `Except.error` with the
  panic message; statements `fn f(&mut self)` become `TileGrid → TileGrid`.
-/

def U64LIM : Nat := 2 ^ 64

/-- `u64::MAX`, the initial value of `min_x` / `min_y` in `TileGrid::new`. -/
def U64MAX : Nat := 2 ^ 64 - 1

inductive TileColor
  | Red
  | Green
  | GreenFill
  | Other
deriving DecidableEq, Repr

inductive InsideIs
  | UpperRight
  | UpperLeft
  | LowerLeft
  | LowerRight
  | NotUpperRight
  | NotUpperLeft
  | NotLowerLeft
  | NotLowerRight
  | Above
  | Left
  | Below
  | Right
  | Unknown
deriving DecidableEq, Repr

structure Point where
  x : Nat
  y : Nat
deriving DecidableEq, Repr

/-- `Point::area_with`.  Each `u64` operation of the Rust source wraps at
`2^64` (the subtractions are guarded by the comparisons and cannot wrap;
the increments and the product can, so they carry the explicit `%`). -/
def Point.area_with (self other : Point) : Nat :=
  if self.x = other.x ∨ self.y = other.y then
    0
  else if self.x < other.x then
    if self.y < other.y then
      let dx := other.x - self.x
      let dy := other.y - self.y
      ((dx + 1) % U64LIM) * ((dy + 1) % U64LIM) % U64LIM
    else
      let dx := other.x - self.x
      let dy := self.y - other.y
      ((dx + 1) % U64LIM) * ((dy + 1) % U64LIM) % U64LIM
  else
    if self.y < other.y then
      let dx := self.x - other.x
      let dy := other.y - self.y
      ((dx + 1) % U64LIM) * ((dy + 1) % U64LIM) % U64LIM
    else
      let dx := self.x - other.x
      let dy := self.y - other.y
      ((dx + 1) % U64LIM) * ((dy + 1) % U64LIM) % U64LIM

structure Tile where
  loc : Point
  color : TileColor
  inside_direction : InsideIs
deriving DecidableEq, Repr

/-- `Tile::new`. -/
def Tile.new (loc : Point) (color : TileColor) : Tile :=
  { loc := loc, color := color, inside_direction := InsideIs.Unknown }

/-- `Tile::set_inside_direction`: only an `Unknown` tag is overwritten. -/
def Tile.set_inside_direction (t : Tile) (d : InsideIs) : Tile :=
  match t.inside_direction with
  | InsideIs.Unknown => { t with inside_direction := d }
  | _ => t

structure TileGrid where
  tiles : List ((Nat × Nat) × Tile)
  min_x : Nat
  min_y : Nat
  max_x : Nat
  max_y : Nat
deriving DecidableEq, Repr

/-- `TileGrid::new`. -/
def TileGrid.new : TileGrid :=
  { tiles := [], min_x := U64MAX, min_y := U64MAX, max_x := 0, max_y := 0 }

/-- First-match lookup in the association list that models the nested
`BTreeMap` (keys are unique, so first match is the match). -/
def lookupTile : List ((Nat × Nat) × Tile) → Nat → Nat → Option Tile
  | [], _, _ => none
  | (k, t) :: rest, x, y => if k = (x, y) then some t else lookupTile rest x y

/-- `TileGrid::insert_tile`.  The Rust function starts with a color check
that panics on `Other` and ends with a re-read of the inserted key that
panics when absent; both panics are unreachable (the only callers are the
three typed wrappers below, and the key has just been inserted), so the
model is total. -/
def TileGrid.insert_tile (g : TileGrid) (loc : Point) (color : TileColor) : TileGrid :=
  if (lookupTile g.tiles loc.x loc.y).isSome then g
  else
    { tiles := g.tiles ++ [((loc.x, loc.y), Tile.new loc color)],
      min_x := min g.min_x loc.x,
      min_y := min g.min_y loc.y,
      max_x := max g.max_x loc.x,
      max_y := max g.max_y loc.y }

/-- `TileGrid::insert_green_tile`. -/
def TileGrid.insert_green_tile (g : TileGrid) (loc : Point) : TileGrid :=
  g.insert_tile loc TileColor.Green

/-- `TileGrid::insert_green_fill_tile`. -/
def TileGrid.insert_green_fill_tile (g : TileGrid) (loc : Point) : TileGrid :=
  g.insert_tile loc TileColor.GreenFill

/-- `TileGrid::insert_red_tile`. -/
def TileGrid.insert_red_tile (g : TileGrid) (loc : Point) : TileGrid :=
  g.insert_tile loc TileColor.Red

/-- `TileGrid::get_color`: absent cells read as `Other`. -/
def TileGrid.get_color (g : TileGrid) (x y : Nat) : TileColor :=
  match lookupTile g.tiles x y with
  | none => TileColor.Other
  | some t => t.color

/-- `TileGrid::get_inside_direction`: absent cells read as `Unknown`. -/
def TileGrid.get_inside_direction (g : TileGrid) (x y : Nat) : InsideIs :=
  match lookupTile g.tiles x y with
  | none => InsideIs.Unknown
  | some t => t.inside_direction

/-- Update the (unique) entry at key `(x, y)` with `Tile.set_inside_direction`. -/
def setDirList : List ((Nat × Nat) × Tile) → Nat → Nat → InsideIs → List ((Nat × Nat) × Tile)
  | [], _, _, _ => []
  | (k, t) :: rest, x, y, d =>
    if k = (x, y) then (k, t.set_inside_direction d) :: rest
    else (k, t) :: setDirList rest x y d

/-- `TileGrid::set_inside_direction`: a no-op on absent cells, and
write-once on present ones (via `Tile::set_inside_direction`). -/
def TileGrid.set_inside_direction (g : TileGrid) (x y : Nat) (d : InsideIs) : TileGrid :=
  { g with tiles := setDirList g.tiles x y d }

/-- One step of the crossing counter shared by `count_left`, `count_right`,
`count_up` and `count_down`: state is `(count, looking_for_red)`. -/
def rayStep (st : Nat × Bool) (c : TileColor) : Nat × Bool :=
  match c with
  | TileColor.Other => st
  | TileColor.GreenFill => st
  | TileColor.Green => if st.2 then st else (st.1 + 1, st.2)
  | TileColor.Red => if st.2 then (st.1 + 1, false) else (st.1 + 1, true)

/-- `TileGrid::count_left`: scan the row from `0` up to (excluding) `x`. -/
def TileGrid.count_left (g : TileGrid) (x y : Nat) : Nat :=
  (((List.range x).map fun i => g.get_color i y).foldl rayStep (0, false)).1

/-- `TileGrid::count_right`: scan the row from `x + 1` up to (excluding)
`max_x + 1`. -/
def TileGrid.count_right (g : TileGrid) (x y : Nat) : Nat :=
  (((List.range' (x + 1) (g.max_x + 1 - (x + 1))).map fun i => g.get_color i y).foldl
    rayStep (0, false)).1

/-- `TileGrid::count_up`: scan the column from `0` up to (excluding) `y`. -/
def TileGrid.count_up (g : TileGrid) (x y : Nat) : Nat :=
  (((List.range y).map fun i => g.get_color x i).foldl rayStep (0, false)).1

/-- `TileGrid::count_down`: scan the column from `y + 1` up to (excluding)
`max_y + 1`. -/
def TileGrid.count_down (g : TileGrid) (x y : Nat) : Nat :=
  (((List.range' (y + 1) (g.max_y + 1 - (y + 1))).map fun i => g.get_color x i).foldl
    rayStep (0, false)).1

/-- `TileGrid::is_color_green`. -/
def TileGrid.is_color_green (g : TileGrid) (x y : Nat) : Bool :=
  match g.get_color x y with
  | TileColor.Green => true
  | _ => false

/-- `TileGrid::is_color_green_fill`. -/
def TileGrid.is_color_green_fill (g : TileGrid) (x y : Nat) : Bool :=
  match g.get_color x y with
  | TileColor.GreenFill => true
  | _ => false

/-- `TileGrid::is_color_other`. -/
def TileGrid.is_color_other (g : TileGrid) (x y : Nat) : Bool :=
  match g.get_color x y with
  | TileColor.Other => true
  | _ => false

/-- `TileGrid::is_color_red`. -/
def TileGrid.is_color_red (g : TileGrid) (x y : Nat) : Bool :=
  match g.get_color x y with
  | TileColor.Red => true
  | _ => false

/-- Row-major sweep order of the bounding box, as iterated by
`fill_if_neighbors` and `fill_in_loops` (`y` outer, `x` inner, both
inclusive ranges).  Both sweeps only ever insert at in-range coordinates,
so the bounds they read never change mid-sweep and reading them once at
entry is faithful. -/
def TileGrid.boxCoords (g : TileGrid) : List (Nat × Nat) :=
  (List.range' g.min_y (g.max_y + 1 - g.min_y)).flatMap fun y =>
    (List.range' g.min_x (g.max_x + 1 - g.min_x)).map fun x => (x, y)

/-- The body of the `fill_if_neighbors` loop for one cell.  The `x - 1`
and `y - 1` here are guarded by `min_x < x` / `min_y < y`, as in the
source. -/
def fillNeighborsStep (g : TileGrid) (c : Nat × Nat) : TileGrid :=
  let x := c.1
  let y := c.2
  match g.get_color x y with
  | TileColor.Other =>
    if g.min_x < x ∧ g.is_color_green_fill (x - 1) y then
      g.insert_green_fill_tile ⟨x, y⟩
    else if g.max_x > x ∧ g.is_color_green_fill (x + 1) y then
      g.insert_green_fill_tile ⟨x, y⟩
    else if g.min_y < y ∧ g.is_color_green_fill x (y - 1) then
      g.insert_green_fill_tile ⟨x, y⟩
    else if g.max_y > y ∧ g.is_color_green_fill x (y + 1) then
      g.insert_green_fill_tile ⟨x, y⟩
    else g
  | _ => g

/-- `TileGrid::fill_if_neighbors`: one row-major sweep inheriting
`GreenFill` from any of the four orthogonal neighbours. -/
def TileGrid.fill_if_neighbors (g : TileGrid) : TileGrid :=
  g.boxCoords.foldl fillNeighborsStep g

/-- The body of the ray-parity loop of `fill_in_loops` for one cell:
skip the cell when some ray count is zero, fill it when some ray count is
odd (each count recomputed, in the source's order). -/
def parityStep (g : TileGrid) (c : Nat × Nat) : TileGrid :=
  let x := c.1
  let y := c.2
  match g.get_color x y with
  | TileColor.Other =>
    if g.count_left x y = 0 then g
    else if g.count_right x y = 0 then g
    else if g.count_up x y = 0 then g
    else if g.count_down x y = 0 then g
    else if g.count_left x y % 2 = 1 then g.insert_green_fill_tile ⟨x, y⟩
    else if g.count_right x y % 2 = 1 then g.insert_green_fill_tile ⟨x, y⟩
    else if g.count_up x y % 2 = 1 then g.insert_green_fill_tile ⟨x, y⟩
    else if g.count_down x y % 2 = 1 then g.insert_green_fill_tile ⟨x, y⟩
    else g
  | _ => g

/-- `TileGrid::fill_in_loops`: the ray-parity pass over the bounding box,
followed by the single `fill_if_neighbors` sweep. -/
def TileGrid.fill_in_loops (g : TileGrid) : TileGrid :=
  (g.boxCoords.foldl parityStep g).fill_if_neighbors

/-- `TileGrid::is_outside`. -/
def TileGrid.is_outside (g : TileGrid) (x y : Nat) : Bool :=
  match g.get_color x y with
  | TileColor.Other =>
    if g.count_left x y = 0 then true
    else if g.count_right x y = 0 then true
    else if g.count_up x y = 0 then true
    else if g.count_down x y = 0 then true
    else if g.count_left x y % 2 = 1 then false
    else if g.count_right x y % 2 = 1 then false
    else if g.count_up x y % 2 = 1 then false
    else if g.count_down x y % 2 = 1 then false
    else true
  | _ => true

/-- `TileGrid::find_inside_direction`: the local corner derivation.  This
function (unlike the propagation steps below) guards `0 < x` and `0 < y`
before forming `x - 1` / `y - 1`. -/
def TileGrid.find_inside_direction (g : TileGrid) (x y : Nat) : InsideIs :=
  let quads :=
    if 0 < x then
      if 0 < y then
        (g.is_outside (x + 1) (y - 1), g.is_outside (x - 1) (y - 1),
         g.is_outside (x - 1) (y + 1), g.is_outside (x + 1) (y + 1))
      else
        (true, true, g.is_outside (x - 1) (y + 1), g.is_outside (x + 1) (y + 1))
    else
      if 0 < y then
        (g.is_outside (x + 1) (y - 1), true, true, g.is_outside (x + 1) (y + 1))
      else
        (true, true, true, g.is_outside (x + 1) (y + 1))
  let upper_right_out := quads.1
  let upper_left_out := quads.2.1
  let lower_left_out := quads.2.2.1
  let lower_right_out := quads.2.2.2
  if upper_left_out ∧ lower_left_out ∧ lower_right_out then InsideIs.UpperRight
  else if upper_right_out ∧ lower_left_out ∧ lower_right_out then InsideIs.UpperLeft
  else if upper_right_out ∧ upper_left_out ∧ lower_right_out then InsideIs.LowerLeft
  else if upper_right_out ∧ upper_left_out ∧ lower_left_out then InsideIs.LowerRight
  else if upper_right_out then InsideIs.NotUpperRight
  else if upper_left_out then InsideIs.NotUpperLeft
  else if lower_left_out then InsideIs.NotLowerLeft
  else if lower_right_out then InsideIs.NotLowerRight
  else InsideIs.Unknown

/-- `x + 1` on `u64` (wraps only at `x = 2^64 - 1`). -/
def u64_add_one (x : Nat) : Nat := (x + 1) % U64LIM

/-- `x - 1` on `u64`: at `x = 0` the subtraction underflows and, with the
wrap-around semantics of a release build, yields `2^64 - 1` (a debug
build aborts here). -/
def u64_sub_one (x : Nat) : Nat := (x + U64MAX) % U64LIM

/-- `TileGrid::mark_red_tiles_moving_down`.  Note the unguarded
`x - 1` probes. -/
def TileGrid.mark_red_tiles_moving_down (g : TileGrid) (a_inside_dir : InsideIs)
    (a b : Point) : Except String TileGrid :=
  let x := a.x
  match a_inside_dir with
  | InsideIs.NotLowerLeft =>
    if g.is_color_other (u64_add_one x) b.y then
      Except.ok (g.set_inside_direction b.x b.y InsideIs.NotUpperLeft)
    else if g.is_color_other (u64_sub_one x) b.y then
      Except.ok (g.set_inside_direction b.x b.y InsideIs.UpperRight)
    else Except.error "DOWN 1"
  | InsideIs.LowerLeft =>
    if g.is_color_other (u64_add_one x) b.y then
      Except.ok (g.set_inside_direction b.x b.y InsideIs.UpperLeft)
    else if g.is_color_other (u64_sub_one x) b.y then
      Except.ok (g.set_inside_direction b.x b.y InsideIs.NotUpperRight)
    else Except.error "DOWN 2"
  | InsideIs.NotLowerRight =>
    if g.is_color_other (u64_add_one x) b.y then
      Except.ok (g.set_inside_direction b.x b.y InsideIs.UpperLeft)
    else if g.is_color_other (u64_sub_one x) b.y then
      Except.ok (g.set_inside_direction b.x b.y InsideIs.NotUpperRight)
    else Except.error "DOWN 3"
  | InsideIs.LowerRight =>
    if g.is_color_other (u64_add_one x) b.y then
      Except.ok (g.set_inside_direction b.x b.y InsideIs.NotUpperLeft)
    else if g.is_color_other (u64_sub_one x) b.y then
      Except.ok (g.set_inside_direction b.x b.y InsideIs.UpperRight)
    else Except.error "DOWN 4"
  | _ => Except.error "Unexpected DOWN a_inside_dir"

/-- `TileGrid::mark_red_tiles_moving_up`. -/
def TileGrid.mark_red_tiles_moving_up (g : TileGrid) (a_inside_dir : InsideIs)
    (a b : Point) : Except String TileGrid :=
  let x := a.x
  match a_inside_dir with
  | InsideIs.NotUpperLeft =>
    if g.is_color_other (u64_add_one x) b.y then
      Except.ok (g.set_inside_direction b.x b.y InsideIs.NotLowerLeft)
    else if g.is_color_other (u64_sub_one x) b.y then
      Except.ok (g.set_inside_direction b.x b.y InsideIs.LowerRight)
    else Except.error "UP 1"
  | InsideIs.UpperLeft =>
    if g.is_color_other (u64_add_one x) b.y then
      Except.ok (g.set_inside_direction b.x b.y InsideIs.LowerLeft)
    else if g.is_color_other (u64_sub_one x) b.y then
      Except.ok (g.set_inside_direction b.x b.y InsideIs.NotLowerRight)
    else Except.error "UP 2"
  | InsideIs.UpperRight =>
    if g.is_color_other (u64_add_one x) b.y then
      Except.ok (g.set_inside_direction b.x b.y InsideIs.NotLowerLeft)
    else if g.is_color_other (u64_sub_one x) b.y then
      Except.ok (g.set_inside_direction b.x b.y InsideIs.LowerRight)
    else Except.error "UP 3"
  | InsideIs.NotUpperRight =>
    if g.is_color_other (u64_add_one x) b.y then
      Except.ok (g.set_inside_direction b.x b.y InsideIs.LowerLeft)
    else if g.is_color_other (u64_sub_one x) b.y then
      Except.ok (g.set_inside_direction b.x b.y InsideIs.NotLowerRight)
    else Except.error "UP 4"
  | _ => Except.error "Unexpected UP a_inside_dir"

/-- `TileGrid::mark_red_tiles_moving_right`.  Note the unguarded
`y - 1` probes. -/
def TileGrid.mark_red_tiles_moving_right (g : TileGrid) (a_inside_dir : InsideIs)
    (a b : Point) : Except String TileGrid :=
  let y := a.y
  match a_inside_dir with
  | InsideIs.NotLowerRight =>
    if g.is_color_other b.x (u64_sub_one y) then
      Except.ok (g.set_inside_direction b.x b.y InsideIs.NotLowerLeft)
    else if g.is_color_other b.x (u64_add_one y) then
      Except.ok (g.set_inside_direction b.x b.y InsideIs.UpperLeft)
    else Except.error "RIGHT 1"
  | InsideIs.LowerRight =>
    if g.is_color_other b.x (u64_sub_one y) then
      Except.ok (g.set_inside_direction b.x b.y InsideIs.LowerLeft)
    else if g.is_color_other b.x (u64_add_one y) then
      Except.ok (g.set_inside_direction b.x b.y InsideIs.NotUpperLeft)
    else Except.error "RIGHT 2"
  | InsideIs.NotUpperRight =>
    if g.is_color_other b.x (u64_sub_one y) then
      Except.ok (g.set_inside_direction b.x b.y InsideIs.LowerLeft)
    else if g.is_color_other b.x (u64_add_one y) then
      Except.ok (g.set_inside_direction b.x b.y InsideIs.NotUpperLeft)
    else Except.error "RIGHT 3"
  | InsideIs.UpperRight =>
    if g.is_color_other b.x (u64_sub_one y) then
      Except.ok (g.set_inside_direction b.x b.y InsideIs.NotLowerLeft)
    else if g.is_color_other b.x (u64_add_one y) then
      Except.ok (g.set_inside_direction b.x b.y InsideIs.UpperLeft)
    else Except.error "RIGHT 4"
  | _ => Except.error "Unexpected RIGHT a_inside_dir"

/-- `TileGrid::mark_red_tiles_moving_left`. -/
def TileGrid.mark_red_tiles_moving_left (g : TileGrid) (a_inside_dir : InsideIs)
    (a b : Point) : Except String TileGrid :=
  let y := a.y
  match a_inside_dir with
  | InsideIs.NotLowerLeft =>
    if g.is_color_other b.x (u64_sub_one y) then
      Except.ok (g.set_inside_direction b.x b.y InsideIs.NotLowerRight)
    else if g.is_color_other b.x (u64_add_one y) then
      Except.ok (g.set_inside_direction b.x b.y InsideIs.UpperRight)
    else Except.error "LEFT 1"
  | InsideIs.UpperLeft =>
    if g.is_color_other b.x (u64_sub_one y) then
      Except.ok (g.set_inside_direction b.x b.y InsideIs.NotLowerRight)
    else if g.is_color_other b.x (u64_add_one y) then
      Except.ok (g.set_inside_direction b.x b.y InsideIs.UpperRight)
    else Except.error "LEFT 2"
  | InsideIs.NotUpperLeft =>
    if g.is_color_other b.x (u64_sub_one y) then
      Except.ok (g.set_inside_direction b.x b.y InsideIs.LowerRight)
    else if g.is_color_other b.x (u64_add_one y) then
      Except.ok (g.set_inside_direction b.x b.y InsideIs.NotUpperRight)
    else Except.error "LEFT 3"
  | InsideIs.LowerLeft =>
    if g.is_color_other b.x (u64_sub_one y) then
      Except.ok (g.set_inside_direction b.x b.y InsideIs.LowerRight)
    else if g.is_color_other b.x (u64_add_one y) then
      Except.ok (g.set_inside_direction b.x b.y InsideIs.NotUpperRight)
    else Except.error "LEFT 4"
  | _ => Except.error "Unexpected LEFT a_inside_dir"

/-- The opening block of `mark_red_tiles_with_inside_direction`: read
`a`'s tag and, when it is `Unknown`, derive it locally with
`find_inside_direction`, store it, and re-read it.  Returns the possibly
updated grid together with the tag the rest of the function uses. -/
def TileGrid.resolve_a_direction (g : TileGrid) (a : Point) : TileGrid × InsideIs :=
  match g.get_inside_direction a.x a.y with
  | InsideIs.Unknown =>
    let dir := g.find_inside_direction a.x a.y
    let g' := g.set_inside_direction a.x a.y dir
    (g', g'.get_inside_direction a.x a.y)
  | d => (g, d)

/-- `TileGrid::mark_red_tiles_with_inside_direction`: resolve `a` locally
if needed (the `resolve_a_direction` block; `b`'s tag is read from the
grid as it was before that update, as in the source), then, when `b` is
still unresolved, dispatch on the direction of travel; a pair sharing
neither coordinate hits the `"Diagonal connection of red tiles ZZZ"`
panic. -/
def TileGrid.mark_red_tiles_with_inside_direction (g : TileGrid) (a b : Point) :
    Except String TileGrid :=
  let b_inside_dir := g.get_inside_direction b.x b.y
  let step1 := g.resolve_a_direction a
  let g1 := step1.1
  let a_inside_dir := step1.2
  match b_inside_dir with
  | InsideIs.Unknown =>
    if a.x = b.x then
      if a.y < b.y then g1.mark_red_tiles_moving_down a_inside_dir a b
      else g1.mark_red_tiles_moving_up a_inside_dir a b
    else if a.y = b.y then
      if a.x < b.x then g1.mark_red_tiles_moving_right a_inside_dir a b
      else g1.mark_red_tiles_moving_left a_inside_dir a b
    else Except.error "Diagonal connection of red tiles ZZZ"
  | _ => Except.ok g1

/-- `TileGrid::connect_red_tiles_with_green_tiles`: materialize the green
tiles strictly between `a` and `b`.  The `else` branch keys on rows and
fires for every pair with `a.x ≠ b.x` — including pairs that also differ
in `y`, which are silently drawn as a horizontal run at `a.y`. -/
def TileGrid.connect_red_tiles_with_green_tiles (g : TileGrid) (a b : Point) : TileGrid :=
  if a.x = b.x then
    let x := a.x
    if a.y ≤ b.y then
      (List.range' (a.y + 1) (b.y - (a.y + 1))).foldl
        (fun g y => g.insert_green_tile ⟨x, y⟩) g
    else
      (List.range' (b.y + 1) (a.y - (b.y + 1))).foldl
        (fun g y => g.insert_green_tile ⟨x, y⟩) g
  else
    let y := a.y
    if a.x ≤ b.x then
      (List.range' (a.x + 1) (b.x - (a.x + 1))).foldl
        (fun g x => g.insert_green_tile ⟨x, y⟩) g
    else
      (List.range' (b.x + 1) (a.x - (b.x + 1))).foldl
        (fun g x => g.insert_green_tile ⟨x, y⟩) g

/-- `TileGrid::is_filled`: normalize the two corners, then require every
cell strictly inside the rectangle to be `GreenFill`.  When the corners
share a coordinate no branch of the chain fires, both corners stay at
`(0, 0)` and the scan is empty. -/
def TileGrid.is_filled (g : TileGrid) (a b : Point) : Bool :=
  let ulbr : Point × Point :=
    if a.x < b.x ∧ a.y < b.y then (⟨a.x, a.y⟩, ⟨b.x, b.y⟩)
    else if a.x < b.x ∧ a.y > b.y then (⟨a.x, b.y⟩, ⟨b.x, a.y⟩)
    else if a.x > b.x ∧ a.y < b.y then (⟨b.x, a.y⟩, ⟨a.x, b.y⟩)
    else if a.x > b.x ∧ a.y > b.y then (⟨b.x, b.y⟩, ⟨a.x, a.y⟩)
    else (⟨0, 0⟩, ⟨0, 0⟩)
  let x_s := ulbr.1.x + 1
  let x_e := ulbr.2.x
  let y_s := ulbr.1.y + 1
  let y_e := ulbr.2.y
  (List.range' x_s (x_e - x_s)).all fun x =>
    (List.range' y_s (y_e - y_s)).all fun y =>
      match g.get_color x y with
      | TileColor.GreenFill => true
      | _ => false

/-- `TileGrid::find_max_filled_area`, with the recursion expressed on the
size `k = rng.end - rng.start` of the remaining index range (`e` is
`rng.end`, so the pass works on `id_a = e - k`; the source recurses on
`start + 1 .. end` before scanning the partners of `id_a`, and the
`&mut max_area` accumulator is threaded explicitly).  `points.get(i).unwrap()`
cannot fail at the call sites (indices stay below `points.len()`). -/
def TileGrid.find_max_filled_area (g : TileGrid) (points : List Point) (e : Nat) :
    Nat → Nat → Nat
  | 0, max_area => max_area
  | 1, max_area => max_area
  | k + 2, max_area =>
    let id_a := e - (k + 2)
    let m1 := g.find_max_filled_area points e (k + 1) max_area
    let point_a := points.getD id_a ⟨0, 0⟩
    (List.range' (id_a + 1) (k + 1)).foldl
      (fun m id_b =>
        let point_b := points.getD id_b ⟨0, 0⟩
        if g.is_filled point_a point_b then
          let area := point_a.area_with point_b
          if area > m then area else m
        else m) m1

/-- The cyclic consecutive pairs `(p_0,p_1), …, (p_{n-1},p_0)` that
`main` feeds to `connect_red_tiles_with_green_tiles` and
`mark_red_tiles_with_inside_direction`. -/
def pairsFrom (first : Point) : Point → List Point → List (Point × Point)
  | prev, [] => [(prev, first)]
  | prev, q :: rest => (prev, q) :: pairsFrom first q rest

def cyclicPairs : List Point → List (Point × Point)
  | [] => []
  | p :: ps => pairsFrom p p ps

/-- The red-tile insertion loop of `main`. -/
def insertAllReds (g : TileGrid) (points : List Point) : TileGrid :=
  points.foldl (fun g p => g.insert_red_tile p) g

/-- The connect loop of `main`. -/
def connectAll (g : TileGrid) (points : List Point) : TileGrid :=
  (cyclicPairs points).foldl
    (fun g ab => g.connect_red_tiles_with_green_tiles ab.1 ab.2) g

/-- The marking loop of `main` (stops at the first panic). -/
def markAll : List (Point × Point) → TileGrid → Except String TileGrid
  | [], g => Except.ok g
  | ab :: rest, g =>
    match g.mark_red_tiles_with_inside_direction ab.1 ab.2 with
    | Except.error e => Except.error e
    | Except.ok g' => markAll rest g'

/-- The whole `--consider-green-tiles` pipeline of `main`: insert the red
tiles, materialize the boundary, resolve orientations, classify the
interior, and search for the maximal filled rectangle (initial
`max_area = 0`). -/
def run_part2 (points : List Point) : Except String Nat :=
  let g0 := insertAllReds TileGrid.new points
  let g1 := connectAll g0 points
  match markAll (cyclicPairs points) g1 with
  | Except.error e => Except.error e
  | Except.ok g2 =>
    let g3 := g2.fill_in_loops
    Except.ok (g3.find_max_filled_area points points.length points.length 0)

/-! ### Concrete inputs

`zigzagPoints` is the polygon of the test `t_given_example_part2`;
`squarePoints` the 4-vertex square of the spec's Scenario 1;
`diagPoints` a 3-vertex input whose first consecutive pair is
non-axis-aligned; `c5Points` a 12-vertex simple rectilinear polygon on
which classification is not idempotent. -/

def zigzagPoints : List Point :=
  [⟨7, 1⟩, ⟨11, 1⟩, ⟨11, 7⟩, ⟨9, 7⟩, ⟨9, 5⟩, ⟨2, 5⟩, ⟨2, 3⟩, ⟨7, 3⟩]

def squarePoints : List Point :=
  [⟨1, 1⟩, ⟨5, 1⟩, ⟨5, 4⟩, ⟨1, 4⟩]

def diagPoints : List Point :=
  [⟨1, 1⟩, ⟨3, 3⟩, ⟨1, 3⟩]

def c5Points : List Point :=
  [⟨3, 7⟩, ⟨3, 4⟩, ⟨6, 4⟩, ⟨6, 5⟩, ⟨8, 5⟩, ⟨8, 2⟩, ⟨7, 2⟩,
   ⟨7, 1⟩, ⟨10, 1⟩, ⟨10, 4⟩, ⟨9, 4⟩, ⟨9, 7⟩]

/-- The grid after boundary materialization of the zigzag polygon. -/
def zigzagBoundary : TileGrid :=
  connectAll (insertAllReds TileGrid.new zigzagPoints) zigzagPoints

/-- The grid after boundary materialization of the square polygon. -/
def squareBoundary : TileGrid :=
  connectAll (insertAllReds TileGrid.new squarePoints) squarePoints

/-- The square grid after the orientation resolver has processed all
four consecutive pairs (the run succeeds; see
`c3_resolver_run_counterexample`). -/
def squareMarked : TileGrid :=
  match markAll (cyclicPairs squarePoints) squareBoundary with
  | Except.ok g => g
  | Except.error _ => TileGrid.new

/-- The grid after boundary materialization of `c5Points`. -/
def c5Boundary : TileGrid :=
  connectAll (insertAllReds TileGrid.new c5Points) c5Points

/-- The `c5Points` grid after a successful orientation-resolver run. -/
def c5Marked : TileGrid :=
  match markAll (cyclicPairs c5Points) c5Boundary with
  | Except.ok g => g
  | Except.error _ => TileGrid.new

/-- The `c5Points` lattice store produced by one complete classification
run (boundary, orientation, one `fill_in_loops`). -/
def c5Once : TileGrid := c5Marked.fill_in_loops

/-! ### Spec-side definitions (from the spec's words, for comparison) -/

/-- A boundary cell in the spec's sense: Vertex (`Red`) or Edge (`Green`). -/
def isBoundaryColor : TileColor → Bool
  | TileColor.Red => true
  | TileColor.Green => true
  | _ => false

/-- Number of maximal contiguous runs of boundary cells in a scanned
color sequence — the spec's crossing count ("a maximal contiguous run of
boundary cells … counts as exactly one crossing"). -/
def boundaryRunsAux : Bool → List TileColor → Nat
  | _, [] => 0
  | prev, c :: rest =>
    (if isBoundaryColor c && !prev then 1 else 0) + boundaryRunsAux (isBoundaryColor c) rest

def boundaryRuns (l : List TileColor) : Nat := boundaryRunsAux false l

/-- Number of `Red` cells in a scanned color sequence. -/
def redsIn (l : List TileColor) : Nat :=
  l.countP fun c => decide (c = TileColor.Red)

/-- Number of `Green` cells of the sequence whose prefix holds a number
of `Red` cells of parity `odd` (`odd = false`: evenly many reds before
the green). -/
def greensAtParity (odd : Bool) (l : List TileColor) : Nat :=
  (List.range l.length).countP fun i =>
    decide (l.get? i = some TileColor.Green) &&
      (decide (redsIn (l.take i) % 2 = 1) == odd)

/-- What the ray counter actually computes (see
`c1_crossings_amended`): every red counts, and a green counts exactly
when evenly many reds precede it. -/
def specRayCrossings (l : List TileColor) : Nat :=
  redsIn l + greensAtParity false l

/-! ### Grids for the underflow claim -/

/-- Red tiles at `(0,0)`, `(0,2)` and `(1,2)`: travelling down the
column `x = 0`, the probe at `x + 1` hits a red tile, so the code falls
through to the `x - 1` probe. -/
def c10GridA : TileGrid :=
  ((TileGrid.new.insert_red_tile ⟨0, 0⟩).insert_red_tile ⟨0, 2⟩).insert_red_tile ⟨1, 2⟩

/-- `c10GridA` with one more red tile at `(2^64 - 1, 2)` — the cell the
underflowed probe actually consults. -/
def c10GridB : TileGrid :=
  c10GridA.insert_red_tile ⟨U64MAX, 2⟩

/-! ### Claim C4 -/

set_option maxRecDepth 400000 in
/-- Claim C4: running the full `--consider-green-tiles` pipeline
(boundary materialization, orientation resolution, interior
classification, rectangle search) on the 8-vertex zigzag polygon
`(7,1),(11,1),(11,7),(9,7),(9,5),(2,5),(2,3),(7,3)` returns maximum
fully-interior rectangle area 24. -/
theorem c4_zigzag_pipeline_returns_24 : run_part2 zigzagPoints = Except.ok 24 := by
  rfl

/-! ### Claim C1: counterexample -/

set_option maxRecDepth 400000 in
/-- Claim C1 counterexample: on the zigzag boundary grid, the leftward
ray from cell `(9,3)` meets exactly one maximal contiguous run of
boundary cells (the edge row `Red (2,3), Green (3..6,3), Red (7,3)`),
yet `count_left` returns 2, not 1: a run is not counted once regardless
of length. -/
theorem c1_crossing_counterexample :
    zigzagBoundary.count_left 9 3 = 2 ∧
    boundaryRuns ((List.range 9).map fun i => zigzagBoundary.get_color i 3) = 1 := by
  constructor <;> rfl

/-! ### Claim C2: counterexample -/

set_option maxRecDepth 400000 in
/-- Claim C2 counterexample: `diagPoints` starts with the
non-axis-aligned pair `(1,1) → (3,3)`, yet boundary materialization does
not abort — it completes and silently draws the pair as a horizontal
green run at `y = 1` (witness the green tile at `(2,1)`).  The fatal
error the claim attributes to boundary construction is raised only
later, by the orientation resolver (`mark_red_tiles_with_inside_direction`),
with the resolver's own panic message. -/
theorem c2_no_abort_at_boundary_counterexample :
    (connectAll (insertAllReds TileGrid.new diagPoints) diagPoints).get_color 2 1 =
      TileColor.Green ∧
    run_part2 diagPoints = Except.error "Diagonal connection of red tiles ZZZ" := by
  constructor <;> rfl

/-! ### Claim C3: counterexample -/

set_option maxRecDepth 400000 in
/-- Claim C3 counterexample: on the square polygon
`(1,1),(5,1),(5,4),(1,4)` (a simple rectilinear polygon with 4
vertices), the orientation resolver completes successfully, yet the
boundary Edge cell `(2,1)` still carries the orientation tag `Unknown`:
the resolver never assigns orientations to Edge (green) cells, so not
every boundary cell ends up resolved. -/
theorem c3_resolver_run_counterexample :
    markAll (cyclicPairs squarePoints) squareBoundary = Except.ok squareMarked ∧
    squareMarked.get_color 2 1 = TileColor.Green ∧
    squareMarked.get_inside_direction 2 1 = InsideIs.Unknown := by
  refine ⟨?_, ?_, ?_⟩ <;> rfl

/-! ### Claim C5: counterexample -/

set_option maxRecDepth 400000 in
/-- Claim C5 counterexample: `c5Points` is a 12-vertex simple
rectilinear polygon whose pipeline run completes (boundary, orientation,
classification).  On the resulting lattice store `c5Once`, running the
classifier `fill_in_loops` a second time changes cell `(6,3)` from
unclassified to `GreenFill`: classification is not idempotent. -/
theorem c5_not_idempotent_counterexample :
    markAll (cyclicPairs c5Points) c5Boundary = Except.ok c5Marked ∧
    c5Once.get_color 6 3 = TileColor.Other ∧
    (c5Once.fill_in_loops).get_color 6 3 = TileColor.GreenFill := by
  refine ⟨?_, ?_, ?_⟩ <;> rfl

/-! ### Claim C7: counterexample -/

/-- Claim C7 counterexample: for `A = (0,0)` and `B = (2^64 - 1, 1)` the
claimed value `(|Ax − Bx| + 1) · (|Ay − By| + 1) = 2^64 · 2` does not
fit in a `u64`; the computed `(dx + 1)` wraps to 0 and `area_with`
returns 0 instead. -/
theorem c7_area_overflow_counterexample :
    Point.area_with ⟨0, 0⟩ ⟨U64MAX, 1⟩ = 0 ∧
    (U64MAX - 0 + 1) * (1 - 0 + 1) = 2 ^ 65 ∧
    Point.area_with ⟨0, 0⟩ ⟨U64MAX, 1⟩ ≠ (U64MAX - 0 + 1) * (1 - 0 + 1) := by
  refine ⟨?_, ?_, ?_⟩ <;> decide

/-! ### Claim C10 -/

/-- Claim C10: the orientation-propagation steps probe `x - 1` (resp.
`y - 1`) on `u64` coordinates with no zero guard.  At `a.x = 0` the
subtraction underflows to `2^64 - 1`, so the step is not safely defined:
its outcome depends on the content of the wrapped-around cell
`(2^64 - 1, b.y)`.  Concretely, `mark_red_tiles_moving_down` on two
grids that differ only at `(2^64 - 1, 2)` either resolves `b` or panics
with `DOWN 1` (a debug build aborts on the underflow itself). -/
theorem c10_propagation_underflow :
    u64_sub_one 0 = U64MAX ∧
    c10GridA.mark_red_tiles_moving_down InsideIs.NotLowerLeft ⟨0, 0⟩ ⟨0, 2⟩ =
      Except.ok (c10GridA.set_inside_direction 0 2 InsideIs.UpperRight) ∧
    c10GridB.mark_red_tiles_moving_down InsideIs.NotLowerLeft ⟨0, 0⟩ ⟨0, 2⟩ =
      Except.error "DOWN 1" := by
  refine ⟨?_, ?_, ?_⟩ <;> rfl


theorem greensAtParity_nil (b : Bool) : greensAtParity b [] = 0 := by
  simp [greensAtParity]

theorem redsIn_cons (c : TileColor) (t : List TileColor) :
    redsIn (c :: t) = (if c = TileColor.Red then 1 else 0) + redsIn t := by
  simp only [redsIn, List.countP_cons]
  rcases c <;> simp <;> omega

theorem greensAtParity_cons (b : Bool) (c : TileColor) (t : List TileColor) :
    greensAtParity b (c :: t) =
      (match c with
       | TileColor.Green => (if b then 0 else 1) + greensAtParity b t
       | TileColor.Red => greensAtParity (!b) t
       | _ => greensAtParity b t) := by
  have hmod : ∀ m : Nat, decide ((1 + m) % 2 = 1) = !(decide (m % 2 = 1)) := by
    intro m
    rcases Nat.mod_two_eq_zero_or_one m with h | h <;> simp [Nat.add_mod, h]
  unfold greensAtParity
  rw [List.length_cons, List.range_succ_eq_map, List.countP_cons, List.countP_map]
  have hfun : ∀ (b' : Bool),
      ((fun i => decide ((c :: t).get? i = some TileColor.Green) &&
        (decide (redsIn ((c :: t).take i) % 2 = 1) == b')) ∘ Nat.succ) =
      (fun i => decide (t.get? i = some TileColor.Green) &&
        (decide (redsIn (t.take i) % 2 = 1) ==
          (match c with | TileColor.Red => !b' | _ => b'))) := by
    intro b'
    funext i
    simp only [Function.comp_apply, Nat.succ_eq_add_one, List.get?_cons_succ,
      List.take_succ_cons, redsIn_cons]
    rcases c <;> simp [hmod] <;> rcases b' <;> simp
  rw [hfun b]
  rcases c <;> rcases b <;> simp [redsIn] <;> omega

theorem foldl_rayStep_eq (l : List TileColor) : ∀ (n : Nat) (b : Bool),
    (l.foldl rayStep (n, b)).1 = n + redsIn l + greensAtParity b l := by
  induction l with
  | nil => intro n b; simp [redsIn, greensAtParity]
  | cons c t ih =>
    intro n b
    rw [List.foldl_cons, greensAtParity_cons, redsIn_cons]
    rcases c <;> rcases b <;> simp [rayStep, ih] <;> omega

/-- Claim C1 (amended): along each of the four cast rays the crossing
count is NOT the number of maximal boundary runs; what each ray counter
returns is the number of `Red` cells scanned plus the number of `Green`
cells scanned that are preceded (from the ray's start) by an even number
of `Red` cells.  This holds for every grid, cell and ray direction. -/
theorem c1_crossings_amended (g : TileGrid) (x y : Nat) :
    g.count_left x y = specRayCrossings ((List.range x).map fun i => g.get_color i y) ∧
    g.count_right x y =
      specRayCrossings ((List.range' (x + 1) (g.max_x + 1 - (x + 1))).map fun i => g.get_color i y) ∧
    g.count_up x y = specRayCrossings ((List.range y).map fun i => g.get_color x i) ∧
    g.count_down x y =
      specRayCrossings ((List.range' (y + 1) (g.max_y + 1 - (y + 1))).map fun i => g.get_color x i) := by
  refine ⟨?_, ?_, ?_, ?_⟩ <;>
    simp [TileGrid.count_left, TileGrid.count_right, TileGrid.count_up, TileGrid.count_down,
      specRayCrossings, foldl_rayStep_eq]

/-- Claim C7 (amended): `area_with` returns 0 when the two points share
an x or y coordinate, and otherwise returns
`(|Ax − Bx| + 1) · (|Ay − By| + 1)` **provided the product fits in a
`u64`** (on overflow the `u64` arithmetic wraps — see
`c7_area_overflow_counterexample`). -/
theorem c7_area_with_amended (a b : Point) :
    (a.x = b.x ∨ a.y = b.y → Point.area_with a b = 0) ∧
    (a.x ≠ b.x → a.y ≠ b.y →
      (max a.x b.x - min a.x b.x + 1) * (max a.y b.y - min a.y b.y + 1) < U64LIM →
      Point.area_with a b =
        (max a.x b.x - min a.x b.x + 1) * (max a.y b.y - min a.y b.y + 1)) := by
  constructor
  · intro h
    simp [Point.area_with, h]
  · intro hx hy hlt
    have hdx : max a.x b.x - min a.x b.x + 1 < U64LIM := by
      calc max a.x b.x - min a.x b.x + 1
          ≤ (max a.x b.x - min a.x b.x + 1) * (max a.y b.y - min a.y b.y + 1) :=
            Nat.le_mul_of_pos_right _ (by omega)
        _ < U64LIM := hlt
    have hdy : max a.y b.y - min a.y b.y + 1 < U64LIM := by
      calc max a.y b.y - min a.y b.y + 1
          ≤ (max a.x b.x - min a.x b.x + 1) * (max a.y b.y - min a.y b.y + 1) :=
            Nat.le_mul_of_pos_left _ (by omega)
        _ < U64LIM := hlt
    unfold Point.area_with
    rw [if_neg (by tauto)]
    rcases Nat.lt_or_ge a.x b.x with h1 | h1 <;> rcases Nat.lt_or_ge a.y b.y with h2 | h2
    · rw [if_pos h1, if_pos h2]
      have e1 : max a.x b.x - min a.x b.x = b.x - a.x := by omega
      have e2 : max a.y b.y - min a.y b.y = b.y - a.y := by omega
      rw [e1] at hdx
      rw [e2] at hdy
      rw [e1, e2] at hlt ⊢
      simp only [Nat.mod_eq_of_lt hdx, Nat.mod_eq_of_lt hdy, Nat.mod_eq_of_lt hlt]
    · rw [if_pos h1, if_neg (by omega)]
      have e1 : max a.x b.x - min a.x b.x = b.x - a.x := by omega
      have e2 : max a.y b.y - min a.y b.y = a.y - b.y := by omega
      rw [e1] at hdx
      rw [e2] at hdy
      rw [e1, e2] at hlt ⊢
      simp only [Nat.mod_eq_of_lt hdx, Nat.mod_eq_of_lt hdy, Nat.mod_eq_of_lt hlt]
    · rw [if_neg (by omega), if_pos h2]
      have e1 : max a.x b.x - min a.x b.x = a.x - b.x := by omega
      have e2 : max a.y b.y - min a.y b.y = b.y - a.y := by omega
      rw [e1] at hdx
      rw [e2] at hdy
      rw [e1, e2] at hlt ⊢
      simp only [Nat.mod_eq_of_lt hdx, Nat.mod_eq_of_lt hdy, Nat.mod_eq_of_lt hlt]
    · rw [if_neg (by omega), if_neg (by omega)]
      have e1 : max a.x b.x - min a.x b.x = a.x - b.x := by omega
      have e2 : max a.y b.y - min a.y b.y = a.y - b.y := by omega
      rw [e1] at hdx
      rw [e2] at hdy
      rw [e1, e2] at hlt ⊢
      simp only [Nat.mod_eq_of_lt hdx, Nat.mod_eq_of_lt hdy, Nat.mod_eq_of_lt hlt]

theorem c7_area_with_amended_witness :
    (Point.area_with ⟨7, 11⟩ ⟨2, 11⟩ = 0) ∧ (Point.area_with ⟨1, 1⟩ ⟨5, 4⟩ = 20) :=
  ⟨(c7_area_with_amended ⟨7, 11⟩ ⟨2, 11⟩).1 (by decide),
   by
    have h := (c7_area_with_amended ⟨1, 1⟩ ⟨5, 4⟩).2 (by decide) (by decide) (by decide)
    simpa using h⟩

theorem tile_set_dir_write_once (t : Tile) (d : InsideIs)
    (h : t.inside_direction ≠ InsideIs.Unknown) : t.set_inside_direction d = t := by
  cases ht : t.inside_direction <;> simp [Tile.set_inside_direction, ht] <;> exact absurd ht h

theorem setDirList_id (x y : Nat) (d : InsideIs) :
    ∀ l : List ((Nat × Nat) × Tile),
      (match lookupTile l x y with
       | none => InsideIs.Unknown
       | some t => t.inside_direction) ≠ InsideIs.Unknown →
      setDirList l x y d = l := by
  intro l
  induction l with
  | nil => intro h; simp [lookupTile] at h
  | cons e rest ih =>
    obtain ⟨k, t⟩ := e
    intro h
    by_cases hk : k = (x, y)
    · simp only [lookupTile, if_pos hk] at h
      simp only [setDirList, if_pos hk, tile_set_dir_write_once t d h]
    · simp only [lookupTile, if_neg hk] at h
      simp only [setDirList, if_neg hk, ih h]

theorem grid_set_dir_write_once (g : TileGrid) (x y : Nat) (d : InsideIs)
    (h : g.get_inside_direction x y ≠ InsideIs.Unknown) : g.set_inside_direction x y d = g := by
  unfold TileGrid.set_inside_direction
  rw [setDirList_id x y d g.tiles h]

def c9ExampleTile : Tile := { loc := ⟨3, 4⟩, color := TileColor.Red, inside_direction := InsideIs.UpperRight }

def c9ExampleGrid : TileGrid :=
  { tiles := [((3, 4), c9ExampleTile)], min_x := 3, min_y := 4, max_x := 3, max_y := 4 }

/-- Claim C9: orientation tags are write-once.  A tile whose tag is
already resolved (not `Unknown`) is left unchanged by
`Tile::set_inside_direction`, and a grid cell whose tag is already
resolved is left unchanged (the whole grid is unchanged) by
`TileGrid::set_inside_direction`: the first assignment wins. -/
theorem c9_orientation_write_once (t : Tile) (g : TileGrid) (x y : Nat) (d : InsideIs) :
    (t.inside_direction ≠ InsideIs.Unknown → t.set_inside_direction d = t) ∧
    (g.get_inside_direction x y ≠ InsideIs.Unknown → g.set_inside_direction x y d = g) :=
  ⟨tile_set_dir_write_once t d,
   grid_set_dir_write_once g x y d⟩

theorem c9_orientation_write_once_witness :
    c9ExampleTile.set_inside_direction InsideIs.LowerLeft = c9ExampleTile ∧
    c9ExampleGrid.set_inside_direction 3 4 InsideIs.LowerLeft = c9ExampleGrid :=
  ⟨(c9_orientation_write_once c9ExampleTile c9ExampleGrid 3 4 InsideIs.LowerLeft).1 (by decide),
   (c9_orientation_write_once c9ExampleTile c9ExampleGrid 3 4 InsideIs.LowerLeft).2 (by decide)⟩

theorem all_range'_filled_iff (g : TileGrid) (xs xe ys ye : Nat) :
    (((List.range' xs (xe - xs)).all fun x => (List.range' ys (ye - ys)).all fun y =>
      match g.get_color x y with
      | TileColor.GreenFill => true
      | _ => false) = true) ↔
    ∀ cx cy, xs ≤ cx → cx < xe → ys ≤ cy → cy < ye →
      g.get_color cx cy = TileColor.GreenFill := by
  rw [List.all_eq_true]
  constructor
  · intro h cx cy h1 h2 h3 h4
    have hmx : cx ∈ List.range' xs (xe - xs) := by
      rw [List.mem_range'_1]; omega
    have hin := h cx hmx
    rw [List.all_eq_true] at hin
    have hmy : cy ∈ List.range' ys (ye - ys) := by
      rw [List.mem_range'_1]; omega
    have := hin cy hmy
    cases hc : g.get_color cx cy <;> rw [hc] at this <;> simp_all
  · intro h x hx
    rw [List.all_eq_true]
    intro y hy
    rw [List.mem_range'_1] at hx hy
    rw [h x y (by omega) (by omega) (by omega) (by omega)]

theorem is_filled_iff_interior (g : TileGrid) (a b : Point) :
    (g.is_filled a b = true) ↔
      (∀ cx cy, min a.x b.x < cx → cx < max a.x b.x →
        min a.y b.y < cy → cy < max a.y b.y →
        g.get_color cx cy = TileColor.GreenFill) := by
  unfold TileGrid.is_filled
  rcases Nat.lt_trichotomy a.x b.x with hx | hx | hx <;>
    rcases Nat.lt_trichotomy a.y b.y with hy | hy | hy
  · rw [if_pos ⟨hx, hy⟩]
    have e1 : min a.x b.x = a.x := Nat.min_eq_left (le_of_lt hx)
    have e2 : max a.x b.x = b.x := Nat.max_eq_right (le_of_lt hx)
    have e3 : min a.y b.y = a.y := Nat.min_eq_left (le_of_lt hy)
    have e4 : max a.y b.y = b.y := Nat.max_eq_right (le_of_lt hy)
    rw [e1, e2, e3, e4]
    exact all_range'_filled_iff g (a.x + 1) b.x (a.y + 1) b.y
  · rw [if_neg (by omega), if_neg (by omega), if_neg (by omega), if_neg (by omega)]
    constructor
    · intro _ cx cy h1 h2 h3 h4
      omega
    · intro _
      simp
  · rw [if_neg (by omega), if_pos ⟨hx, hy⟩]
    have e1 : min a.x b.x = a.x := Nat.min_eq_left (le_of_lt hx)
    have e2 : max a.x b.x = b.x := Nat.max_eq_right (le_of_lt hx)
    have e3 : min a.y b.y = b.y := Nat.min_eq_right (le_of_lt hy)
    have e4 : max a.y b.y = a.y := Nat.max_eq_left (le_of_lt hy)
    rw [e1, e2, e3, e4]
    exact all_range'_filled_iff g (a.x + 1) b.x (b.y + 1) a.y
  · rw [if_neg (by omega), if_neg (by omega), if_neg (by omega), if_neg (by omega)]
    constructor
    · intro _ cx cy h1 h2 h3 h4
      omega
    · intro _
      simp
  · rw [if_neg (by omega), if_neg (by omega), if_neg (by omega), if_neg (by omega)]
    constructor
    · intro _ cx cy h1 h2 h3 h4
      omega
    · intro _
      simp
  · rw [if_neg (by omega), if_neg (by omega), if_neg (by omega), if_neg (by omega)]
    constructor
    · intro _ cx cy h1 h2 h3 h4
      omega
    · intro _
      simp
  · rw [if_neg (by omega), if_neg (by omega), if_pos ⟨hx, hy⟩]
    have e1 : min a.x b.x = b.x := Nat.min_eq_right (le_of_lt hx)
    have e2 : max a.x b.x = a.x := Nat.max_eq_left (le_of_lt hx)
    have e3 : min a.y b.y = a.y := Nat.min_eq_left (le_of_lt hy)
    have e4 : max a.y b.y = b.y := Nat.max_eq_right (le_of_lt hy)
    rw [e1, e2, e3, e4]
    exact all_range'_filled_iff g (b.x + 1) a.x (a.y + 1) b.y
  · rw [if_neg (by omega), if_neg (by omega), if_neg (by omega), if_neg (by omega)]
    constructor
    · intro _ cx cy h1 h2 h3 h4
      omega
    · intro _
      simp
  · rw [if_neg (by omega), if_neg (by omega), if_neg (by omega), if_pos ⟨hx, hy⟩]
    have e1 : min a.x b.x = b.x := Nat.min_eq_right (le_of_lt hx)
    have e2 : max a.x b.x = a.x := Nat.max_eq_left (le_of_lt hx)
    have e3 : min a.y b.y = b.y := Nat.min_eq_right (le_of_lt hy)
    have e4 : max a.y b.y = a.y := Nat.max_eq_left (le_of_lt hy)
    rw [e1, e2, e3, e4]
    exact all_range'_filled_iff g (b.x + 1) a.x (b.y + 1) a.y

/-- Claim C6: for corners with distinct x and distinct y coordinates,
the rectangle-validation check `is_filled` accepts exactly when every
lattice cell strictly inside the axis-aligned rectangle spanned by the
corners is classified `GreenFill` (InteriorFilled); cells on the
rectangle's boundary are not constrained by the check. -/
theorem c6_is_filled_characterization (g : TileGrid) (a b : Point)
    (hx : a.x ≠ b.x) (hy : a.y ≠ b.y) :
    (g.is_filled a b = true ↔
      ∀ cx cy, min a.x b.x < cx → cx < max a.x b.x →
        min a.y b.y < cy → cy < max a.y b.y →
        g.get_color cx cy = TileColor.GreenFill) :=
  is_filled_iff_interior g a b

def c6ExampleGrid : TileGrid := TileGrid.new.insert_green_fill_tile ⟨1, 1⟩

theorem c6_is_filled_characterization_witness :
    c6ExampleGrid.get_color 1 1 = TileColor.GreenFill :=
  (c6_is_filled_characterization c6ExampleGrid ⟨0, 0⟩ ⟨2, 2⟩ (by decide) (by decide)).mp
    (by decide) 1 1 (by decide) (by decide) (by decide) (by decide)

/-- The index pairs `(id_a, id_b)` scanned by the recursion of
`find_max_filled_area` on the range of size `k` ending at `e`. -/
def scannedPairs (e : Nat) : Nat → List (Nat × Nat)
  | 0 => []
  | 1 => []
  | k + 2 =>
    scannedPairs e (k + 1) ++
      (List.range' (e - (k + 2) + 1) (k + 1)).map fun j => (e - (k + 2), j)

/-- The contribution of one vertex pair to the rectangle search: its
area if its rectangle passes `is_filled`, else 0. -/
def filledPairArea (g : TileGrid) (points : List Point) (ij : Nat × Nat) : Nat :=
  if g.is_filled (points.getD ij.1 ⟨0, 0⟩) (points.getD ij.2 ⟨0, 0⟩) then
    Point.area_with (points.getD ij.1 ⟨0, 0⟩) (points.getD ij.2 ⟨0, 0⟩)
  else 0

/-- Rectangle search as plain iteration: the maximum pair contribution
over all index pairs `i < j < n`. -/
def specMaxFilledArea (g : TileGrid) (points : List Point) : Nat :=
  (((scannedPairs points.length points.length).map
    (filledPairArea g points)).foldr max 0)

theorem step_eq_max (g : TileGrid) (points : List Point) (m : Nat) (ij : Nat × Nat) :
    (if g.is_filled (points.getD ij.1 ⟨0, 0⟩) (points.getD ij.2 ⟨0, 0⟩) then
      (if Point.area_with (points.getD ij.1 ⟨0, 0⟩) (points.getD ij.2 ⟨0, 0⟩) > m then
        Point.area_with (points.getD ij.1 ⟨0, 0⟩) (points.getD ij.2 ⟨0, 0⟩)
      else m)
    else m) = max m (filledPairArea g points ij) := by
  unfold filledPairArea
  split <;> [skip; omega] <;> split <;> omega

theorem foldl_max_eq (l : List Nat) : ∀ m : Nat, l.foldl max m = max m (l.foldr max 0) := by
  induction l with
  | nil => intro m; simp
  | cons c t ih =>
    intro m
    rw [List.foldl_cons, List.foldr_cons, ih (max m c)]
    omega

theorem foldl_filled_eq (g : TileGrid) (points : List Point) (a : Nat) :
    ∀ (l : List Nat) (m : Nat),
      l.foldl (fun m j =>
        if g.is_filled (points.getD a ⟨0, 0⟩) (points.getD j ⟨0, 0⟩) then
          if (points.getD a ⟨0, 0⟩).area_with (points.getD j ⟨0, 0⟩) > m then
            (points.getD a ⟨0, 0⟩).area_with (points.getD j ⟨0, 0⟩)
          else m
        else m) m =
      (l.map fun j => filledPairArea g points (a, j)).foldl max m := by
  intro l
  induction l with
  | nil => intro m; rfl
  | cons c t ih =>
    intro m
    rw [List.foldl_cons, List.map_cons, List.foldl_cons, ih]
    congr 1
    exact step_eq_max g points m (a, c)

theorem fmfa_eq (g : TileGrid) (points : List Point) (e : Nat) :
    ∀ k m, g.find_max_filled_area points e k m =
      (((scannedPairs e k).map (filledPairArea g points)).foldl max m) := by
  intro k
  induction k using Nat.strong_induction_on with
  | _ k ih =>
    match k with
    | 0 => intro m; rfl
    | 1 => intro m; rfl
    | k + 2 =>
      intro m
      show (List.range' (e - (k + 2) + 1) (k + 1)).foldl _
          (g.find_max_filled_area points e (k + 1) m) = _
      rw [ih (k + 1) (by omega)]
      rw [show scannedPairs e (k + 2) =
        scannedPairs e (k + 1) ++
          (List.range' (e - (k + 2) + 1) (k + 1)).map (fun j => (e - (k + 2), j)) from rfl]
      rw [List.map_append, List.foldl_append, List.map_map]
      exact foldl_filled_eq g points (e - (k + 2)) (List.range' (e - (k + 2) + 1) (k + 1)) _

theorem mem_scannedPairs (e : Nat) :
    ∀ k, k ≤ e → ∀ ij : Nat × Nat, ij ∈ scannedPairs e k → ij.1 < ij.2 ∧ ij.2 < e := by
  intro k
  induction k using Nat.strong_induction_on with
  | _ k ih =>
    match k with
    | 0 => intro _ ij h; simp [scannedPairs] at h
    | 1 => intro _ ij h; simp [scannedPairs] at h
    | k + 2 =>
      intro hke ij h
      rw [show scannedPairs e (k + 2) =
        scannedPairs e (k + 1) ++
          (List.range' (e - (k + 2) + 1) (k + 1)).map (fun j => (e - (k + 2), j)) from rfl] at h
      rcases List.mem_append.mp h with h | h
      · exact ih (k + 1) (by omega) (by omega) ij h
      · rcases List.mem_map.mp h with ⟨j, hj, rfl⟩
        rw [List.mem_range'_1] at hj
        constructor <;> simp <;> omega

theorem area_with_zero_of_shared (p q : Point) (h : p.x = q.x ∨ p.y = q.y) :
    p.area_with q = 0 := by
  unfold Point.area_with
  rw [if_pos h]

theorem foldr_max_zero (l : List Nat) (h : ∀ x ∈ l, x = 0) : l.foldr max 0 = 0 := by
  induction l with
  | nil => rfl
  | cons c t ih =>
    rw [List.foldr_cons, h c (List.mem_cons_self c t), ih fun x hx => h x (List.mem_cons_of_mem c hx)]
    rfl

/-- Claim C8: Rectangle Search (`find_max_filled_area` as called by
`main`, with initial maximum 0) returns the maximum pair contribution
over all index pairs `i < j` (`specMaxFilledArea`, the nested-iteration
form); it returns exactly 0 for every input with fewer than 2 vertices;
and it returns exactly 0 whenever no pair with distinct x and distinct y
coordinates has a fully `GreenFill` strict interior — degenerate pairs
sharing a coordinate pass `is_filled` vacuously but contribute area 0
and so never produce a positive result. -/
theorem c8_search_zero_when_no_valid_pair (g : TileGrid) (points : List Point) :
    (g.find_max_filled_area points points.length points.length 0 =
      specMaxFilledArea g points) ∧
    (points.length < 2 →
      g.find_max_filled_area points points.length points.length 0 = 0) ∧
    ((∀ i j, i < j → j < points.length →
        (points.getD i ⟨0, 0⟩).x ≠ (points.getD j ⟨0, 0⟩).x →
        (points.getD i ⟨0, 0⟩).y ≠ (points.getD j ⟨0, 0⟩).y →
        ¬ (∀ cx cy,
            min (points.getD i ⟨0, 0⟩).x (points.getD j ⟨0, 0⟩).x < cx →
            cx < max (points.getD i ⟨0, 0⟩).x (points.getD j ⟨0, 0⟩).x →
            min (points.getD i ⟨0, 0⟩).y (points.getD j ⟨0, 0⟩).y < cy →
            cy < max (points.getD i ⟨0, 0⟩).y (points.getD j ⟨0, 0⟩).y →
            g.get_color cx cy = TileColor.GreenFill)) →
      g.find_max_filled_area points points.length points.length 0 = 0) := by
  have h1 : g.find_max_filled_area points points.length points.length 0 =
      specMaxFilledArea g points := by
    rw [fmfa_eq g points points.length points.length 0]
    unfold specMaxFilledArea
    rw [foldl_max_eq]
    omega
  refine ⟨h1, ?_, ?_⟩
  · intro hlen
    rw [h1]
    unfold specMaxFilledArea
    interval_cases h : points.length <;> rfl
  · intro hno
    rw [h1]
    unfold specMaxFilledArea
    apply foldr_max_zero
    intro x hx
    rcases List.mem_map.mp hx with ⟨ij, hmem, rfl⟩
    have hij := mem_scannedPairs points.length points.length (le_refl _) ij hmem
    unfold filledPairArea
    split
    · rename_i hfill
      by_cases hshared : (points.getD ij.1 ⟨0, 0⟩).x = (points.getD ij.2 ⟨0, 0⟩).x ∨
          (points.getD ij.1 ⟨0, 0⟩).y = (points.getD ij.2 ⟨0, 0⟩).y
      · exact area_with_zero_of_shared _ _ hshared
      · push_neg at hshared
        exact absurd ((is_filled_iff_interior g _ _).mp hfill)
          (hno ij.1 ij.2 hij.1 hij.2 hshared.1 hshared.2)
    · rfl

theorem c8_search_zero_when_no_valid_pair_witness :
    (TileGrid.new.find_max_filled_area ([] : List Point)
      ([] : List Point).length ([] : List Point).length 0 = 0) ∧
    (TileGrid.new.find_max_filled_area [(⟨0, 0⟩ : Point), ⟨5, 7⟩]
      ([(⟨0, 0⟩ : Point), ⟨5, 7⟩]).length ([(⟨0, 0⟩ : Point), ⟨5, 7⟩]).length 0 = 0) := by
  constructor
  · exact (c8_search_zero_when_no_valid_pair TileGrid.new []).2.1 (by decide)
  · apply (c8_search_zero_when_no_valid_pair TileGrid.new [⟨0, 0⟩, ⟨5, 7⟩]).2.2
    intro i j hij hj2 hx hy hall
    simp only [List.length_cons, List.length_nil] at hj2
    have hi : i = 0 := by omega
    have hj : j = 1 := by omega
    subst hi
    subst hj
    have := hall 1 1 (by decide) (by decide) (by decide) (by decide)
    exact absurd this (by decide)

/-- Claim C2 (amended): a consecutive pair sharing neither coordinate is
not detected during boundary materialization; the fatal
`"Diagonal connection of red tiles ZZZ"` error is raised by the
orientation resolver, and exactly when the destination vertex's tag is
still `Unknown` when the pair is processed. -/
theorem c2_diagonal_error_in_resolver (g : TileGrid) (a b : Point)
    (hx : a.x ≠ b.x) (hy : a.y ≠ b.y)
    (hb : g.get_inside_direction b.x b.y = InsideIs.Unknown) :
    g.mark_red_tiles_with_inside_direction a b =
      Except.error "Diagonal connection of red tiles ZZZ" := by
  simp only [TileGrid.mark_red_tiles_with_inside_direction, hb, if_neg hx, if_neg hy]

theorem c2_diagonal_error_in_resolver_witness :
    TileGrid.new.mark_red_tiles_with_inside_direction ⟨0, 0⟩ ⟨1, 1⟩ =
      Except.error "Diagonal connection of red tiles ZZZ" :=
  c2_diagonal_error_in_resolver TileGrid.new ⟨0, 0⟩ ⟨1, 1⟩ (by decide) (by decide) (by decide)

theorem Tile.color_set_inside_direction (t : Tile) (d : InsideIs) :
    (t.set_inside_direction d).color = t.color := by
  cases ht : t.inside_direction <;> simp [Tile.set_inside_direction, ht]

theorem Tile.dir_set_inside_direction (t : Tile) (d : InsideIs) :
    (t.set_inside_direction d).inside_direction =
      if t.inside_direction = InsideIs.Unknown then d else t.inside_direction := by
  cases ht : t.inside_direction <;> simp [Tile.set_inside_direction, ht]

theorem lookup_setDirList (x y : Nat) (d : InsideIs) (x' y' : Nat) :
    ∀ l : List ((Nat × Nat) × Tile),
      lookupTile (setDirList l x y d) x' y' =
        if (x', y') = (x, y) then
          (lookupTile l x' y').map fun t => t.set_inside_direction d
        else lookupTile l x' y' := by
  intro l
  induction l with
  | nil => simp [setDirList, lookupTile]
  | cons e rest ih =>
    obtain ⟨k, t⟩ := e
    by_cases hk : k = (x, y) <;> by_cases hk' : k = (x', y')
    · have hxy : (x', y') = (x, y) := hk'.symm.trans hk
      simp [setDirList, lookupTile, hk, hk', hxy]
    · have hxy : ¬ (x', y') = (x, y) := fun h => hk' (hk.trans h.symm)
      have hcomp : ¬ (x = x' ∧ y = y') := by
        rintro ⟨rfl, rfl⟩
        exact hk' hk
      simp [setDirList, lookupTile, hk, hxy, hcomp]
    · have hxy : ¬ (x', y') = (x, y) := fun h => hk (hk'.trans h)
      simp [setDirList, lookupTile, hk, hk', hxy]
    · simp [setDirList, lookupTile, hk, hk', ih]

theorem set_inside_direction_get_color (g : TileGrid) (x y : Nat) (d : InsideIs) (x' y' : Nat) :
    (g.set_inside_direction x y d).get_color x' y' = g.get_color x' y' := by
  unfold TileGrid.get_color TileGrid.set_inside_direction
  rw [lookup_setDirList]
  by_cases h : (x', y') = (x, y)
  · rw [if_pos h]
    cases hl : lookupTile g.tiles x' y' <;> simp [Tile.color_set_inside_direction]
  · rw [if_neg h]

theorem set_inside_direction_isSome (g : TileGrid) (x y : Nat) (d : InsideIs) (x' y' : Nat) :
    (lookupTile (g.set_inside_direction x y d).tiles x' y').isSome =
      (lookupTile g.tiles x' y').isSome := by
  unfold TileGrid.set_inside_direction
  rw [lookup_setDirList]
  by_cases h : (x', y') = (x, y)
  · rw [if_pos h]
    cases hl : lookupTile g.tiles x' y' <;> simp
  · rw [if_neg h]

theorem set_inside_direction_get_dir_other (g : TileGrid) (x y : Nat) (d : InsideIs)
    (x' y' : Nat) (h : ¬ (x', y') = (x, y)) :
    (g.set_inside_direction x y d).get_inside_direction x' y' =
      g.get_inside_direction x' y' := by
  unfold TileGrid.get_inside_direction TileGrid.set_inside_direction
  rw [lookup_setDirList, if_neg h]

theorem set_inside_direction_get_dir_same (g : TileGrid) (x y : Nat) (d : InsideIs)
    (hsome : (lookupTile g.tiles x y).isSome) :
    (g.set_inside_direction x y d).get_inside_direction x y =
      if g.get_inside_direction x y = InsideIs.Unknown then d
      else g.get_inside_direction x y := by
  unfold TileGrid.get_inside_direction TileGrid.set_inside_direction
  rw [lookup_setDirList, if_pos rfl]
  cases hl : lookupTile g.tiles x y with
  | none => rw [hl] at hsome; simp at hsome
  | some t => simp [Tile.dir_set_inside_direction]

theorem set_inside_direction_ne_unknown (g : TileGrid) (x y : Nat) (d : InsideIs)
    (x' y' : Nat) (h : g.get_inside_direction x' y' ≠ InsideIs.Unknown) :
    (g.set_inside_direction x y d).get_inside_direction x' y' ≠ InsideIs.Unknown := by
  by_cases hk : (x', y') = (x, y)
  · obtain ⟨hx, hy⟩ := Prod.mk.injEq .. ▸ hk
    subst hx
    subst hy
    by_cases hsome : (lookupTile g.tiles x' y').isSome
    · rw [set_inside_direction_get_dir_same g x' y' d hsome, if_neg h]
      exact h
    · unfold TileGrid.get_inside_direction TileGrid.set_inside_direction at *
      rw [lookup_setDirList, if_pos rfl]
      cases hl : lookupTile g.tiles x' y'
      · rw [hl] at h
        simp at h
      · rw [hl] at hsome; simp at hsome
  · rw [set_inside_direction_get_dir_other g x y d x' y' hk]
    exact h

theorem mark_red_tiles_moving_down_ok (g : TileGrid) (dir : InsideIs) (a b : Point)
    (g' : TileGrid) (h : g.mark_red_tiles_moving_down dir a b = Except.ok g') :
    ∃ d, g' = g.set_inside_direction b.x b.y d ∧ d ≠ InsideIs.Unknown := by
  cases dir
  case NotLowerLeft =>
    simp only [TileGrid.mark_red_tiles_moving_down] at h
    split_ifs at h with h1 h2
    · exact ⟨_, (Except.ok.inj h).symm, by decide⟩
    · exact ⟨_, (Except.ok.inj h).symm, by decide⟩
  case LowerLeft =>
    simp only [TileGrid.mark_red_tiles_moving_down] at h
    split_ifs at h with h1 h2
    · exact ⟨_, (Except.ok.inj h).symm, by decide⟩
    · exact ⟨_, (Except.ok.inj h).symm, by decide⟩
  case NotLowerRight =>
    simp only [TileGrid.mark_red_tiles_moving_down] at h
    split_ifs at h with h1 h2
    · exact ⟨_, (Except.ok.inj h).symm, by decide⟩
    · exact ⟨_, (Except.ok.inj h).symm, by decide⟩
  case LowerRight =>
    simp only [TileGrid.mark_red_tiles_moving_down] at h
    split_ifs at h with h1 h2
    · exact ⟨_, (Except.ok.inj h).symm, by decide⟩
    · exact ⟨_, (Except.ok.inj h).symm, by decide⟩
  all_goals
    simp only [TileGrid.mark_red_tiles_moving_down] at h
    exact absurd h (by simp)

theorem mark_red_tiles_moving_up_ok (g : TileGrid) (dir : InsideIs) (a b : Point)
    (g' : TileGrid) (h : g.mark_red_tiles_moving_up dir a b = Except.ok g') :
    ∃ d, g' = g.set_inside_direction b.x b.y d ∧ d ≠ InsideIs.Unknown := by
  cases dir
  case NotUpperLeft =>
    simp only [TileGrid.mark_red_tiles_moving_up] at h
    split_ifs at h with h1 h2
    · exact ⟨_, (Except.ok.inj h).symm, by decide⟩
    · exact ⟨_, (Except.ok.inj h).symm, by decide⟩
  case UpperLeft =>
    simp only [TileGrid.mark_red_tiles_moving_up] at h
    split_ifs at h with h1 h2
    · exact ⟨_, (Except.ok.inj h).symm, by decide⟩
    · exact ⟨_, (Except.ok.inj h).symm, by decide⟩
  case UpperRight =>
    simp only [TileGrid.mark_red_tiles_moving_up] at h
    split_ifs at h with h1 h2
    · exact ⟨_, (Except.ok.inj h).symm, by decide⟩
    · exact ⟨_, (Except.ok.inj h).symm, by decide⟩
  case NotUpperRight =>
    simp only [TileGrid.mark_red_tiles_moving_up] at h
    split_ifs at h with h1 h2
    · exact ⟨_, (Except.ok.inj h).symm, by decide⟩
    · exact ⟨_, (Except.ok.inj h).symm, by decide⟩
  all_goals
    simp only [TileGrid.mark_red_tiles_moving_up] at h
    exact absurd h (by simp)

theorem mark_red_tiles_moving_right_ok (g : TileGrid) (dir : InsideIs) (a b : Point)
    (g' : TileGrid) (h : g.mark_red_tiles_moving_right dir a b = Except.ok g') :
    ∃ d, g' = g.set_inside_direction b.x b.y d ∧ d ≠ InsideIs.Unknown := by
  cases dir
  case NotLowerRight =>
    simp only [TileGrid.mark_red_tiles_moving_right] at h
    split_ifs at h with h1 h2
    · exact ⟨_, (Except.ok.inj h).symm, by decide⟩
    · exact ⟨_, (Except.ok.inj h).symm, by decide⟩
  case LowerRight =>
    simp only [TileGrid.mark_red_tiles_moving_right] at h
    split_ifs at h with h1 h2
    · exact ⟨_, (Except.ok.inj h).symm, by decide⟩
    · exact ⟨_, (Except.ok.inj h).symm, by decide⟩
  case NotUpperRight =>
    simp only [TileGrid.mark_red_tiles_moving_right] at h
    split_ifs at h with h1 h2
    · exact ⟨_, (Except.ok.inj h).symm, by decide⟩
    · exact ⟨_, (Except.ok.inj h).symm, by decide⟩
  case UpperRight =>
    simp only [TileGrid.mark_red_tiles_moving_right] at h
    split_ifs at h with h1 h2
    · exact ⟨_, (Except.ok.inj h).symm, by decide⟩
    · exact ⟨_, (Except.ok.inj h).symm, by decide⟩
  all_goals
    simp only [TileGrid.mark_red_tiles_moving_right] at h
    exact absurd h (by simp)

theorem mark_red_tiles_moving_left_ok (g : TileGrid) (dir : InsideIs) (a b : Point)
    (g' : TileGrid) (h : g.mark_red_tiles_moving_left dir a b = Except.ok g') :
    ∃ d, g' = g.set_inside_direction b.x b.y d ∧ d ≠ InsideIs.Unknown := by
  cases dir
  case NotLowerLeft =>
    simp only [TileGrid.mark_red_tiles_moving_left] at h
    split_ifs at h with h1 h2
    · exact ⟨_, (Except.ok.inj h).symm, by decide⟩
    · exact ⟨_, (Except.ok.inj h).symm, by decide⟩
  case UpperLeft =>
    simp only [TileGrid.mark_red_tiles_moving_left] at h
    split_ifs at h with h1 h2
    · exact ⟨_, (Except.ok.inj h).symm, by decide⟩
    · exact ⟨_, (Except.ok.inj h).symm, by decide⟩
  case NotUpperLeft =>
    simp only [TileGrid.mark_red_tiles_moving_left] at h
    split_ifs at h with h1 h2
    · exact ⟨_, (Except.ok.inj h).symm, by decide⟩
    · exact ⟨_, (Except.ok.inj h).symm, by decide⟩
  case LowerLeft =>
    simp only [TileGrid.mark_red_tiles_moving_left] at h
    split_ifs at h with h1 h2
    · exact ⟨_, (Except.ok.inj h).symm, by decide⟩
    · exact ⟨_, (Except.ok.inj h).symm, by decide⟩
  all_goals
    simp only [TileGrid.mark_red_tiles_moving_left] at h
    exact absurd h (by simp)


theorem resolve_a_direction_grid (g : TileGrid) (a : Point) :
    (g.resolve_a_direction a).1 = g ∨
      (g.resolve_a_direction a).1 =
        g.set_inside_direction a.x a.y (g.find_inside_direction a.x a.y) := by
  unfold TileGrid.resolve_a_direction
  cases g.get_inside_direction a.x a.y <;> simp

theorem resolve_a_direction_isSome (g : TileGrid) (a : Point) (x y : Nat)
    (h : (lookupTile g.tiles x y).isSome) :
    (lookupTile (g.resolve_a_direction a).1.tiles x y).isSome := by
  rcases resolve_a_direction_grid g a with hr | hr <;> rw [hr]
  · exact h
  · rw [set_inside_direction_isSome]
    exact h

theorem resolve_a_direction_ne_unknown (g : TileGrid) (a : Point) (x y : Nat)
    (h : g.get_inside_direction x y ≠ InsideIs.Unknown) :
    (g.resolve_a_direction a).1.get_inside_direction x y ≠ InsideIs.Unknown := by
  rcases resolve_a_direction_grid g a with hr | hr <;> rw [hr]
  · exact h
  · exact set_inside_direction_ne_unknown _ _ _ _ _ _ h

theorem mark_shape (g : TileGrid) (a b : Point) (g' : TileGrid)
    (h : g.mark_red_tiles_with_inside_direction a b = Except.ok g') :
    (g.get_inside_direction b.x b.y ≠ InsideIs.Unknown ∧
       g' = (g.resolve_a_direction a).1) ∨
      ∃ d, d ≠ InsideIs.Unknown ∧
        g' = (g.resolve_a_direction a).1.set_inside_direction b.x b.y d := by
  unfold TileGrid.mark_red_tiles_with_inside_direction at h
  cases hbd : g.get_inside_direction b.x b.y <;> simp only [hbd] at h
  case Unknown =>
    split_ifs at h with h1 h2 h3 h4
    · rcases mark_red_tiles_moving_down_ok _ _ _ _ _ h with ⟨d, hg, hd⟩
      exact Or.inr ⟨d, hd, hg⟩
    · rcases mark_red_tiles_moving_up_ok _ _ _ _ _ h with ⟨d, hg, hd⟩
      exact Or.inr ⟨d, hd, hg⟩
    · rcases mark_red_tiles_moving_right_ok _ _ _ _ _ h with ⟨d, hg, hd⟩
      exact Or.inr ⟨d, hd, hg⟩
    · rcases mark_red_tiles_moving_left_ok _ _ _ _ _ h with ⟨d, hg, hd⟩
      exact Or.inr ⟨d, hd, hg⟩
  all_goals exact Or.inl ⟨by simp [hbd], (Except.ok.inj h).symm⟩

theorem mark_ok_resolves_b (g : TileGrid) (a b : Point) (g' : TileGrid)
    (hsome : (lookupTile g.tiles b.x b.y).isSome)
    (h : g.mark_red_tiles_with_inside_direction a b = Except.ok g') :
    g'.get_inside_direction b.x b.y ≠ InsideIs.Unknown := by
  rcases mark_shape g a b g' h with ⟨hne, rfl⟩ | ⟨d, hd, rfl⟩
  · exact resolve_a_direction_ne_unknown g a b.x b.y hne
  · rw [set_inside_direction_get_dir_same _ _ _ _
      (resolve_a_direction_isSome g a b.x b.y hsome)]
    split
    · exact hd
    · assumption

theorem mark_ok_preserves_isSome (g : TileGrid) (a b : Point) (g' : TileGrid)
    (h : g.mark_red_tiles_with_inside_direction a b = Except.ok g')
    (x y : Nat) (hsome : (lookupTile g.tiles x y).isSome) :
    (lookupTile g'.tiles x y).isSome := by
  rcases mark_shape g a b g' h with ⟨_, rfl⟩ | ⟨d, _, rfl⟩
  · exact resolve_a_direction_isSome g a x y hsome
  · rw [set_inside_direction_isSome]
    exact resolve_a_direction_isSome g a x y hsome

theorem mark_ok_preserves_ne_unknown (g : TileGrid) (a b : Point) (g' : TileGrid)
    (h : g.mark_red_tiles_with_inside_direction a b = Except.ok g')
    (x y : Nat) (hne : g.get_inside_direction x y ≠ InsideIs.Unknown) :
    g'.get_inside_direction x y ≠ InsideIs.Unknown := by
  rcases mark_shape g a b g' h with ⟨_, rfl⟩ | ⟨d, _, rfl⟩
  · exact resolve_a_direction_ne_unknown g a x y hne
  · exact set_inside_direction_ne_unknown _ _ _ _ _ _
      (resolve_a_direction_ne_unknown g a x y hne)

theorem markAll_ok_preserves_isSome :
    ∀ (pairs : List (Point × Point)) (g g' : TileGrid),
      markAll pairs g = Except.ok g' →
      ∀ x y, (lookupTile g.tiles x y).isSome → (lookupTile g'.tiles x y).isSome := by
  intro pairs
  induction pairs with
  | nil =>
    intro g g' h x y hsome
    rw [Except.ok.inj h] at hsome
    exact hsome
  | cons ab rest ih =>
    intro g g' h x y hsome
    unfold markAll at h
    cases hm : g.mark_red_tiles_with_inside_direction ab.1 ab.2 with
    | error e => rw [hm] at h; exact absurd h (by simp)
    | ok g1 =>
      rw [hm] at h
      exact ih g1 g' h x y (mark_ok_preserves_isSome g ab.1 ab.2 g1 hm x y hsome)

theorem markAll_ok_preserves_ne_unknown :
    ∀ (pairs : List (Point × Point)) (g g' : TileGrid),
      markAll pairs g = Except.ok g' →
      ∀ x y, g.get_inside_direction x y ≠ InsideIs.Unknown →
        g'.get_inside_direction x y ≠ InsideIs.Unknown := by
  intro pairs
  induction pairs with
  | nil =>
    intro g g' h x y hne
    rw [Except.ok.inj h] at hne
    exact hne
  | cons ab rest ih =>
    intro g g' h x y hne
    unfold markAll at h
    cases hm : g.mark_red_tiles_with_inside_direction ab.1 ab.2 with
    | error e => rw [hm] at h; exact absurd h (by simp)
    | ok g1 =>
      rw [hm] at h
      exact ih g1 g' h x y (mark_ok_preserves_ne_unknown g ab.1 ab.2 g1 hm x y hne)

theorem markAll_resolves :
    ∀ (pairs : List (Point × Point)) (g g' : TileGrid),
      markAll pairs g = Except.ok g' →
      ∀ ab ∈ pairs, (lookupTile g.tiles ab.2.x ab.2.y).isSome →
        g'.get_inside_direction ab.2.x ab.2.y ≠ InsideIs.Unknown := by
  intro pairs
  induction pairs with
  | nil =>
    intro g g' h ab hmem
    simp at hmem
  | cons hd rest ih =>
    intro g g' h ab hmem hsome
    unfold markAll at h
    cases hm : g.mark_red_tiles_with_inside_direction hd.1 hd.2 with
    | error e => rw [hm] at h; exact absurd h (by simp)
    | ok g1 =>
      rw [hm] at h
      rcases List.mem_cons.mp hmem with rfl | hmem'
      · exact markAll_ok_preserves_ne_unknown rest g1 g' h ab.2.x ab.2.y
          (mark_ok_resolves_b g ab.1 ab.2 g1 hsome hm)
      · exact ih g1 g' h ab hmem'
          (mark_ok_preserves_isSome g hd.1 hd.2 g1 hm ab.2.x ab.2.y hsome)

theorem snd_mem_pairsFrom (first : Point) :
    ∀ (l : List Point) (prev : Point) (x : Point), x ∈ l →
      ∃ a, (a, x) ∈ pairsFrom first prev l := by
  intro l
  induction l with
  | nil =>
    intro prev x hx
    simp at hx
  | cons q rest ih =>
    intro prev x hx
    rcases List.mem_cons.mp hx with rfl | hx'
    · exact ⟨prev, List.mem_cons_self _ _⟩
    · rcases ih q x hx' with ⟨a, ha⟩
      exact ⟨a, List.mem_cons_of_mem _ ha⟩

theorem fst_mem_pairsFrom (first : Point) :
    ∀ (l : List Point) (prev : Point), ∃ a, (a, first) ∈ pairsFrom first prev l := by
  intro l
  induction l with
  | nil => intro prev; exact ⟨prev, List.mem_cons_self _ _⟩
  | cons q rest ih =>
    intro prev
    rcases ih q with ⟨a, ha⟩
    exact ⟨a, List.mem_cons_of_mem _ ha⟩

theorem snd_mem_cyclicPairs (points : List Point) (p : Point) (hp : p ∈ points) :
    ∃ a, (a, p) ∈ cyclicPairs points := by
  cases points with
  | nil => simp at hp
  | cons q rest =>
    rcases List.mem_cons.mp hp with rfl | hp'
    · exact fst_mem_pairsFrom p rest p
    · exact snd_mem_pairsFrom q rest q p hp'

/-- Claim C3 (amended): when the orientation resolver processes all
consecutive vertex pairs (in `main`'s cyclic order) and completes
without a fatal error, every **Vertex** cell present in the grid ends up
with a resolved (non-`Unknown`) orientation tag.  Edge cells are never
assigned a tag (see `c3_resolver_run_counterexample`). -/
theorem c3_vertex_cells_resolved (g : TileGrid) (points : List Point) (g' : TileGrid)
    (hcells : ∀ p ∈ points, (lookupTile g.tiles p.x p.y).isSome)
    (hrun : markAll (cyclicPairs points) g = Except.ok g') :
    ∀ p ∈ points, g'.get_inside_direction p.x p.y ≠ InsideIs.Unknown := by
  intro p hp
  rcases snd_mem_cyclicPairs points p hp with ⟨a, hmem⟩
  exact markAll_resolves (cyclicPairs points) g g' hrun (a, p) hmem (hcells p hp)

/-- How classification may change a grid: bounds are unchanged, existing
tiles are untouched, and any new tile is a fresh `GreenFill`. -/
structure FillExtends (g g' : TileGrid) : Prop where
  min_x_eq : g'.min_x = g.min_x
  min_y_eq : g'.min_y = g.min_y
  max_x_eq : g'.max_x = g.max_x
  max_y_eq : g'.max_y = g.max_y
  keep : ∀ x y, (lookupTile g.tiles x y).isSome →
    lookupTile g'.tiles x y = lookupTile g.tiles x y
  fresh : ∀ x y, lookupTile g.tiles x y = none →
    lookupTile g'.tiles x y = none ∨
      lookupTile g'.tiles x y = some (Tile.new ⟨x, y⟩ TileColor.GreenFill)

theorem fillExtends_refl (g : TileGrid) : FillExtends g g :=
  ⟨rfl, rfl, rfl, rfl, fun _ _ _ => rfl, fun _ _ h => Or.inl h⟩

theorem fillExtends_trans {g g' g'' : TileGrid}
    (h1 : FillExtends g g') (h2 : FillExtends g' g'') : FillExtends g g'' := by
  refine ⟨h2.min_x_eq.trans h1.min_x_eq, h2.min_y_eq.trans h1.min_y_eq,
    h2.max_x_eq.trans h1.max_x_eq, h2.max_y_eq.trans h1.max_y_eq, ?_, ?_⟩
  · intro x y hsome
    rw [h2.keep x y (by rw [h1.keep x y hsome]; exact hsome), h1.keep x y hsome]
  · intro x y hnone
    rcases h1.fresh x y hnone with h | h
    · exact h2.fresh x y h
    · right
      rw [h2.keep x y (by rw [h]; rfl), h]

theorem fillExtends_isSome {g g' : TileGrid} (h : FillExtends g g') (x y : Nat)
    (hsome : (lookupTile g.tiles x y).isSome) : (lookupTile g'.tiles x y).isSome := by
  rw [h.keep x y hsome]
  exact hsome

theorem fillExtends_none {g g' : TileGrid} (h : FillExtends g g') (x y : Nat)
    (hnone : lookupTile g'.tiles x y = none) : lookupTile g.tiles x y = none := by
  cases hl : lookupTile g.tiles x y with
  | none => rfl
  | some t =>
    have := fillExtends_isSome h x y (by rw [hl]; rfl)
    rw [hnone] at this
    simp at this

theorem lookup_append (x y : Nat) (e : (Nat × Nat) × Tile) :
    ∀ l : List ((Nat × Nat) × Tile),
      lookupTile (l ++ [e]) x y =
        match lookupTile l x y with
        | some u => some u
        | none => if e.1 = (x, y) then some e.2 else none := by
  intro l
  induction l with
  | nil => simp [lookupTile]
  | cons hd rest ih =>
    obtain ⟨k, t⟩ := hd
    by_cases hk : k = (x, y) <;> simp [lookupTile, hk, ih]

theorem fillExtends_insert (g : TileGrid) (p : Point)
    (hx1 : g.min_x ≤ p.x) (hx2 : p.x ≤ g.max_x)
    (hy1 : g.min_y ≤ p.y) (hy2 : p.y ≤ g.max_y) :
    FillExtends g (g.insert_green_fill_tile p) := by
  unfold TileGrid.insert_green_fill_tile TileGrid.insert_tile
  by_cases hs : (lookupTile g.tiles p.x p.y).isSome
  · rw [if_pos hs]
    exact fillExtends_refl g
  · rw [if_neg hs]
    refine ⟨by simp [Nat.min_eq_left hx1], by simp [Nat.min_eq_left hy1],
      by simp [Nat.max_eq_left hx2], by simp [Nat.max_eq_left hy2], ?_, ?_⟩
    · intro x y hsome
      rw [lookup_append]
      cases hl : lookupTile g.tiles x y with
      | none => rw [hl] at hsome; simp at hsome
      | some u => rfl
    · intro x y hnone
      rw [lookup_append, hnone]
      by_cases hk : ((p.x, p.y) : Nat × Nat) = (x, y)
      · right
        rw [if_pos hk]
        obtain ⟨hkx, hky⟩ := Prod.mk.injEq .. ▸ hk
        subst hkx
        subst hky
        rfl
      · left
        simp only []
        rw [if_neg hk]

theorem fillExtends_get_color {g g' : TileGrid} (h : FillExtends g g') (x y : Nat) :
    g'.get_color x y = g.get_color x y ∨
      (g.get_color x y = TileColor.Other ∧ g'.get_color x y = TileColor.GreenFill) := by
  unfold TileGrid.get_color
  cases hl : lookupTile g.tiles x y with
  | none =>
    rcases h.fresh x y hl with h' | h' <;> rw [h'] <;> simp [Tile.new]
  | some t =>
    rw [h.keep x y (by rw [hl]; rfl), hl]
    left
    rfl

theorem rayStep_class_eq (st : Nat × Bool) (c c' : TileColor)
    (h : c = c' ∨ (c = TileColor.Other ∧ c' = TileColor.GreenFill) ∨
      (c = TileColor.GreenFill ∧ c' = TileColor.Other)) :
    rayStep st c = rayStep st c' := by
  rcases h with rfl | ⟨rfl, rfl⟩ | ⟨rfl, rfl⟩ <;> rfl

theorem foldl_rayStep_congr (f f' : Nat → TileColor) :
    ∀ (idx : List Nat) (st : Nat × Bool),
      (∀ i ∈ idx, f i = f' i ∨ (f i = TileColor.Other ∧ f' i = TileColor.GreenFill) ∨
        (f i = TileColor.GreenFill ∧ f' i = TileColor.Other)) →
      (idx.map f).foldl rayStep st = (idx.map f').foldl rayStep st := by
  intro idx
  induction idx with
  | nil => intro st _; rfl
  | cons i rest ih =>
    intro st hall
    rw [List.map_cons, List.map_cons, List.foldl_cons, List.foldl_cons,
      rayStep_class_eq st (f i) (f' i) (hall i (List.mem_cons_self _ _)), ih]
    intro j hj
    exact hall j (List.mem_cons_of_mem _ hj)

theorem fillExtends_color_rel {g g' : TileGrid} (h : FillExtends g g') (x y : Nat) :
    g'.get_color x y = g.get_color x y ∨
      (g'.get_color x y = TileColor.Other ∧ g.get_color x y = TileColor.GreenFill) ∨
      (g'.get_color x y = TileColor.GreenFill ∧ g.get_color x y = TileColor.Other) := by
  rcases fillExtends_get_color h x y with h' | ⟨h1, h2⟩
  · exact Or.inl h'
  · exact Or.inr (Or.inr ⟨h2, h1⟩)

theorem fillExtends_count_left {g g' : TileGrid} (h : FillExtends g g') (x y : Nat) :
    g'.count_left x y = g.count_left x y := by
  unfold TileGrid.count_left
  rw [foldl_rayStep_congr (fun i => g'.get_color i y) (fun i => g.get_color i y)
    (List.range x) (0, false) fun i _ => fillExtends_color_rel h i y]

theorem fillExtends_count_right {g g' : TileGrid} (h : FillExtends g g') (x y : Nat) :
    g'.count_right x y = g.count_right x y := by
  unfold TileGrid.count_right
  rw [h.max_x_eq,
    foldl_rayStep_congr (fun i => g'.get_color i y) (fun i => g.get_color i y)
      (List.range' (x + 1) (g.max_x + 1 - (x + 1))) (0, false)
      fun i _ => fillExtends_color_rel h i y]

theorem fillExtends_count_up {g g' : TileGrid} (h : FillExtends g g') (x y : Nat) :
    g'.count_up x y = g.count_up x y := by
  unfold TileGrid.count_up
  rw [foldl_rayStep_congr (fun i => g'.get_color x i) (fun i => g.get_color x i)
    (List.range y) (0, false) fun i _ => fillExtends_color_rel h x i]

theorem fillExtends_count_down {g g' : TileGrid} (h : FillExtends g g') (x y : Nat) :
    g'.count_down x y = g.count_down x y := by
  unfold TileGrid.count_down
  rw [h.max_y_eq,
    foldl_rayStep_congr (fun i => g'.get_color x i) (fun i => g.get_color x i)
      (List.range' (y + 1) (g.max_y + 1 - (y + 1))) (0, false)
      fun i _ => fillExtends_color_rel h x i]

theorem fillExtends_boxCoords {g g' : TileGrid} (h : FillExtends g g') :
    g'.boxCoords = g.boxCoords := by
  unfold TileGrid.boxCoords
  rw [h.min_x_eq, h.min_y_eq, h.max_x_eq, h.max_y_eq]

/-- Membership in the bounding box sweep. -/
def InBox (g : TileGrid) (c : Nat × Nat) : Prop :=
  g.min_x ≤ c.1 ∧ c.1 ≤ g.max_x ∧ g.min_y ≤ c.2 ∧ c.2 ≤ g.max_y

theorem mem_boxCoords {g : TileGrid} {c : Nat × Nat} (h : c ∈ g.boxCoords) : InBox g c := by
  unfold TileGrid.boxCoords at h
  rcases List.mem_flatMap.mp h with ⟨y, hy, hc⟩
  rcases List.mem_map.mp hc with ⟨x, hx, rfl⟩
  rw [List.mem_range'_1] at hy hx
  exact ⟨by omega, by omega, by omega, by omega⟩

theorem fillExtends_inBox {g g' : TileGrid} (h : FillExtends g g') (c : Nat × Nat)
    (hc : InBox g c) : InBox g' c := by
  unfold InBox at *
  rw [h.min_x_eq, h.min_y_eq, h.max_x_eq, h.max_y_eq]
  exact hc

/-- The ray-parity loop leaves a cell unfilled exactly when some ray count
is zero or all four are even. -/
def Rejected (g : TileGrid) (x y : Nat) : Prop :=
  g.count_left x y = 0 ∨ g.count_right x y = 0 ∨
    g.count_up x y = 0 ∨ g.count_down x y = 0 ∨
    (g.count_left x y % 2 ≠ 1 ∧ g.count_right x y % 2 ≠ 1 ∧
      g.count_up x y % 2 ≠ 1 ∧ g.count_down x y % 2 ≠ 1)

theorem fillExtends_rejected {g g' : TileGrid} (h : FillExtends g g') (x y : Nat)
    (hr : Rejected g x y) : Rejected g' x y := by
  unfold Rejected at *
  rw [fillExtends_count_left h, fillExtends_count_right h, fillExtends_count_up h,
    fillExtends_count_down h]
  exact hr

theorem parityStep_extends (g : TileGrid) (c : Nat × Nat) (hc : InBox g c) :
    FillExtends g (parityStep g c) := by
  obtain ⟨h1, h2, h3, h4⟩ := hc
  cases hcol : g.get_color c.1 c.2
  case Other =>
    simp only [parityStep, hcol]
    split_ifs <;>
      first
        | exact fillExtends_refl g
        | exact fillExtends_insert g ⟨c.1, c.2⟩ h1 h2 h3 h4
  all_goals
    simp only [parityStep, hcol]
    exact fillExtends_refl g

theorem fillNeighborsStep_extends (g : TileGrid) (c : Nat × Nat) (hc : InBox g c) :
    FillExtends g (fillNeighborsStep g c) := by
  obtain ⟨h1, h2, h3, h4⟩ := hc
  cases hcol : g.get_color c.1 c.2
  case Other =>
    simp only [fillNeighborsStep, hcol]
    split_ifs <;>
      first
        | exact fillExtends_refl g
        | exact fillExtends_insert g ⟨c.1, c.2⟩ h1 h2 h3 h4
  all_goals
    simp only [fillNeighborsStep, hcol]
    exact fillExtends_refl g

theorem foldl_parityStep_extends :
    ∀ (coords : List (Nat × Nat)) (g : TileGrid),
      (∀ c ∈ coords, InBox g c) → FillExtends g (coords.foldl parityStep g) := by
  intro coords
  induction coords with
  | nil => intro g _; exact fillExtends_refl g
  | cons c rest ih =>
    intro g hall
    rw [List.foldl_cons]
    have hstep := parityStep_extends g c (hall c (List.mem_cons_self _ _))
    refine fillExtends_trans hstep (ih (parityStep g c) fun c' hc' => ?_)
    exact fillExtends_inBox hstep c' (hall c' (List.mem_cons_of_mem _ hc'))

theorem foldl_fillNeighborsStep_extends :
    ∀ (coords : List (Nat × Nat)) (g : TileGrid),
      (∀ c ∈ coords, InBox g c) → FillExtends g (coords.foldl fillNeighborsStep g) := by
  intro coords
  induction coords with
  | nil => intro g _; exact fillExtends_refl g
  | cons c rest ih =>
    intro g hall
    rw [List.foldl_cons]
    have hstep := fillNeighborsStep_extends g c (hall c (List.mem_cons_self _ _))
    refine fillExtends_trans hstep (ih (fillNeighborsStep g c) fun c' hc' => ?_)
    exact fillExtends_inBox hstep c' (hall c' (List.mem_cons_of_mem _ hc'))

theorem fill_if_neighbors_extends (g : TileGrid) : FillExtends g g.fill_if_neighbors :=
  foldl_fillNeighborsStep_extends g.boxCoords g fun _ hc => mem_boxCoords hc

theorem fill_in_loops_extends (g : TileGrid) : FillExtends g g.fill_in_loops := by
  unfold TileGrid.fill_in_loops
  have hp := foldl_parityStep_extends g.boxCoords g fun _ hc => mem_boxCoords hc
  exact fillExtends_trans hp (fill_if_neighbors_extends _)

theorem get_color_other_of_none (g : TileGrid) (x y : Nat)
    (h : lookupTile g.tiles x y = none) : g.get_color x y = TileColor.Other := by
  unfold TileGrid.get_color
  rw [h]

theorem insert_green_fill_lookup_self (g : TileGrid) (p : Point)
    (h : lookupTile g.tiles p.x p.y = none) :
    (lookupTile (g.insert_green_fill_tile p).tiles p.x p.y).isSome := by
  unfold TileGrid.insert_green_fill_tile TileGrid.insert_tile
  rw [if_neg (by rw [h]; simp)]
  simp only []
  rw [lookup_append, h]
  simp

theorem insert_green_fill_present_id (g : TileGrid) (p : Point)
    (h : (lookupTile g.tiles p.x p.y).isSome) : g.insert_green_fill_tile p = g := by
  unfold TileGrid.insert_green_fill_tile TileGrid.insert_tile
  rw [if_pos h]

theorem parityStep_fills_of_not_rejected (g : TileGrid) (c : Nat × Nat)
    (habs : lookupTile g.tiles c.1 c.2 = none) (hrej : ¬ Rejected g c.1 c.2) :
    (lookupTile (parityStep g c).tiles c.1 c.2).isSome := by
  unfold Rejected at hrej
  push_neg at hrej
  obtain ⟨hl, hr, hu, hd, hodd⟩ := hrej
  simp only [parityStep, get_color_other_of_none g c.1 c.2 habs]
  split_ifs <;>
    first
      | exact insert_green_fill_lookup_self g ⟨c.1, c.2⟩ habs
      | omega

theorem parityStep_id_of_processed (g : TileGrid) (c : Nat × Nat)
    (h : (lookupTile g.tiles c.1 c.2).isSome ∨ Rejected g c.1 c.2) :
    parityStep g c = g := by
  cases hcol : g.get_color c.1 c.2
  case Other =>
    simp only [parityStep, hcol]
    rcases h with hsome | hrej
    · split_ifs <;>
        first
          | rfl
          | exact insert_green_fill_present_id g ⟨c.1, c.2⟩ hsome
    · rcases hrej with h1 | h1 | h1 | h1 | ⟨h1, h2, h3, h4⟩ <;>
        (split_ifs <;> first | rfl | omega)
  all_goals
    simp only [parityStep, hcol]

theorem parity_fold_rejects :
    ∀ (coords : List (Nat × Nat)) (g : TileGrid),
      (∀ c ∈ coords, InBox g c) →
      ∀ c ∈ coords, lookupTile (coords.foldl parityStep g).tiles c.1 c.2 = none →
        Rejected (coords.foldl parityStep g) c.1 c.2 := by
  intro coords
  induction coords with
  | nil =>
    intro g _ c hc
    simp at hc
  | cons c0 rest ih =>
    intro g hall c hc habs
    rw [List.foldl_cons] at habs ⊢
    have hstep := parityStep_extends g c0 (hall c0 (List.mem_cons_self _ _))
    have hrest : ∀ c' ∈ rest, InBox (parityStep g c0) c' := fun c' hc' =>
      fillExtends_inBox hstep c' (hall c' (List.mem_cons_of_mem _ hc'))
    have hextF := foldl_parityStep_extends rest (parityStep g c0) hrest
    rcases List.mem_cons.mp hc with rfl | hc'
    · have habs1 : lookupTile (parityStep g c).tiles c.1 c.2 = none :=
        fillExtends_none hextF c.1 c.2 habs
      have habs0 : lookupTile g.tiles c.1 c.2 = none :=
        fillExtends_none hstep c.1 c.2 habs1
      have hrej : Rejected g c.1 c.2 := by
        by_contra hnot
        have := parityStep_fills_of_not_rejected g c habs0 hnot
        rw [habs1] at this
        simp at this
      exact fillExtends_rejected (fillExtends_trans hstep hextF) c.1 c.2 hrej
    · exact ih (parityStep g c0) hrest c hc' habs

theorem parity_fold_id :
    ∀ (coords : List (Nat × Nat)) (g : TileGrid),
      (∀ c ∈ coords, (lookupTile g.tiles c.1 c.2).isSome ∨ Rejected g c.1 c.2) →
      coords.foldl parityStep g = g := by
  intro coords
  induction coords with
  | nil => intro g _; rfl
  | cons c0 rest ih =>
    intro g hall
    rw [List.foldl_cons, parityStep_id_of_processed g c0 (hall c0 (List.mem_cons_self _ _))]
    exact ih g fun c hc => hall c (List.mem_cons_of_mem _ hc)

/-- Claim C5 (amended): re-running the Interior Classifier is not a
no-op in general, but the second run's ray-parity pass adds nothing: for
every grid, running `fill_in_loops` twice equals the first run followed
by one extra `fill_if_neighbors` sweep, so any change a second
classification makes comes solely from the neighbor-propagation sweep
(which `c5_not_idempotent_counterexample` shows can fill new cells). -/
theorem c5_second_run_only_sweeps (g : TileGrid) :
    g.fill_in_loops.fill_in_loops = g.fill_in_loops.fill_if_neighbors := by
  have hid : (g.fill_in_loops.boxCoords).foldl parityStep g.fill_in_loops =
      g.fill_in_loops := by
    apply parity_fold_id
    intro c hc
    by_cases hsome : (lookupTile g.fill_in_loops.tiles c.1 c.2).isSome
    · exact Or.inl hsome
    · right
      have habs : lookupTile g.fill_in_loops.tiles c.1 c.2 = none :=
        Option.not_isSome_iff_eq_none.mp hsome
      have hextP := foldl_parityStep_extends g.boxCoords g fun _ h => mem_boxCoords h
      have hextS : FillExtends (g.boxCoords.foldl parityStep g) g.fill_in_loops :=
        fill_if_neighbors_extends _
      have hbox : g.fill_in_loops.boxCoords = g.boxCoords :=
        fillExtends_boxCoords (fill_in_loops_extends g)
      rw [hbox] at hc
      have habsP : lookupTile (g.boxCoords.foldl parityStep g).tiles c.1 c.2 = none :=
        fillExtends_none hextS c.1 c.2 habs
      have hrejP : Rejected (g.boxCoords.foldl parityStep g) c.1 c.2 :=
        parity_fold_rejects g.boxCoords g (fun _ h => mem_boxCoords h) c hc habsP
      exact fillExtends_rejected hextS c.1 c.2 hrejP
  show ((g.fill_in_loops.boxCoords.foldl parityStep g.fill_in_loops).fill_if_neighbors) = _
  rw [hid]

set_option maxRecDepth 400000 in
theorem c3_vertex_cells_resolved_witness :
    squareMarked.get_inside_direction 1 1 ≠ InsideIs.Unknown :=
  c3_vertex_cells_resolved squareBoundary squarePoints squareMarked
    (by decide) (by rfl) ⟨1, 1⟩ (by decide)
